import Mathlib

/-!
# Verification of the CosmicNetworkSim spatial index and simulation pipeline

Shallow embedding of the repository's core:

* `SpatialGrid` (src/spatialGrid.ts, class `SpatialGrid<T>`): a uniform grid
  mapping quantized 3D cell coordinates to buckets of items.  The TypeScript
  `Map<string, T[]>` keyed by the string `"cx,cy,cz"` is modelled as an
  association list keyed by the integer triple `(cx, cy, cz)`; the string
  encoding of an integer triple is injective, so the key change is faithful.
* `Star`, `Connection`, `DustCloud` (src/entities.ts) and the per-tick
  pipeline of `NetworkManager.update` (src/networkManager.ts).

Numbers are modelled by exact ordered fields (`ℚ` for the generic grid
theorems, `ℝ` for the simulation, whose code computes Euclidean norms with
`Math.sqrt`).  JavaScript `Math.random()` draws are passed in as explicit
oracle arguments, one per call site.  Rendering-only state (meshes, colors,
opacity, lights, scene membership) is outside the model; the flags that the
simulation logic reads (`isActive`, `isObscured`, ...) are kept.
-/

namespace CosmicNet

/-- 3D vector over a field, mirroring the `THREE.Vector3` components used by
the simulation logic. -/
structure Vec3 (K : Type) where
  x : K
  y : K
  z : K
deriving DecidableEq, Repr

namespace Vec3

variable {K : Type} [LinearOrderedField K]

/-- Componentwise subtraction (`Vector3.subVectors`). -/
def sub (a b : Vec3 K) : Vec3 K := ⟨a.x - b.x, a.y - b.y, a.z - b.z⟩

/-- Dot product (`Vector3.dot`). -/
def dot (a b : Vec3 K) : K := a.x * b.x + a.y * b.y + a.z * b.z

/-- `a + t * d` (`Vector3.addScaledVector`). -/
def addScaled (a : Vec3 K) (d : Vec3 K) (t : K) : Vec3 K :=
  ⟨a.x + t * d.x, a.y + t * d.y, a.z + t * d.z⟩

/-- Componentwise scalar division (`Vector3.divideScalar`, used by
`normalize`).  Division by zero yields the zero vector, which agrees with
three.js's `normalize` guard `divideScalar(length() || 1)` on the zero
vector. -/
def divScalar (a : Vec3 K) (s : K) : Vec3 K := ⟨a.x / s, a.y / s, a.z / s⟩

/-- Squared Euclidean distance between two vectors. -/
def distSq (a b : Vec3 K) : K :=
  (a.x - b.x) ^ 2 + (a.y - b.y) ^ 2 + (a.z - b.z) ^ 2

/-- Squared planar (x,z) distance, as computed by the dust-obscuration pass
and the distance-from-galaxy-center checks. -/
def planarDistSq (a b : Vec3 K) : K := (a.x - b.x) ^ 2 + (a.z - b.z) ^ 2

end Vec3

/-- Euclidean distance over `ℝ` (`Vector3.distanceTo`, i.e.
`Math.sqrt` of the sum of squared component differences). -/
noncomputable def dist3 (a b : Vec3 ℝ) : ℝ := Real.sqrt (Vec3.distSq a b)

/-- Euclidean length of a vector over `ℝ` (`Vector3.length`). -/
noncomputable def vlen (a : Vec3 ℝ) : ℝ := Real.sqrt (a.x ^ 2 + a.y ^ 2 + a.z ^ 2)

/-- Planar (x,z) distance over `ℝ`, as computed with `Math.sqrt(dx*dx+dz*dz)`
in `Star.update` and the dust-obscuration pass. -/
noncomputable def planarDist (a b : Vec3 ℝ) : ℝ := Real.sqrt (Vec3.planarDistSq a b)

/-! ## SpatialGrid (src/spatialGrid.ts) -/

/-- The uniform spatial grid.  `grid` models the `Map<string, T[]>` as an
association list in key-insertion order; `minBounds`/`maxBounds` are stored
by the constructor exactly as in the source (and, as the source shows, never
read afterwards). -/
structure SpatialGrid (K : Type) (α : Type) where
  cellSize : K
  grid : List ((ℤ × ℤ × ℤ) × List α)
  minBounds : Vec3 K
  maxBounds : Vec3 K

namespace SpatialGrid

variable {K : Type} [LinearOrderedField K] [FloorRing K] {α : Type}

/-- `new SpatialGrid(cellSize, minBounds, maxBounds)`: empty map, stored
bounds. -/
def create (cellSize : K) (minBounds maxBounds : Vec3 K) : SpatialGrid K α :=
  ⟨cellSize, [], minBounds, maxBounds⟩

/-- `getCellKey`: floor of each coordinate divided by the cell size. -/
def cellKey (cellSize : K) (x y z : K) : ℤ × ℤ × ℤ :=
  (⌊x / cellSize⌋, ⌊y / cellSize⌋, ⌊z / cellSize⌋)

/-- Cell key of a position vector. -/
def cellKeyV (cellSize : K) (v : Vec3 K) : ℤ × ℤ × ℤ := cellKey cellSize v.x v.y v.z

/-- Bucket stored for a key (`this.grid.get(key)`, with a missing key read
as the empty bucket, matching `this.grid.get(key) || []`). -/
def getBucket (g : List ((ℤ × ℤ × ℤ) × List α)) (k : ℤ × ℤ × ℤ) : List α :=
  match g with
  | [] => []
  | e :: rest => if e.1 = k then e.2 else getBucket rest k

/-- `Map.set` on the association list: overwrite in place if the key is
present (JS `Map` keeps the original key position), otherwise append. -/
def setBucket (g : List ((ℤ × ℤ × ℤ) × List α)) (k : ℤ × ℤ × ℤ) (v : List α) :
    List ((ℤ × ℤ × ℤ) × List α) :=
  match g with
  | [] => [(k, v)]
  | e :: rest => if e.1 = k then (k, v) :: rest else e :: setBucket rest k v

/-- `insert(position, item)`: create the bucket if absent, then push the
item. -/
def insert (sg : SpatialGrid K α) (p : Vec3 K) (item : α) : SpatialGrid K α :=
  let k := cellKeyV sg.cellSize p
  { sg with grid := setBucket sg.grid k (getBucket sg.grid k ++ [item]) }

/-- `query(position)`: items sharing exactly the query's cell. -/
def query (sg : SpatialGrid K α) (p : Vec3 K) : List α :=
  getBucket sg.grid (cellKeyV sg.cellSize p)

/-- Inclusive integer range `[lo, hi]`, as traversed by
`for (let d = lo; d <= hi; d++)`. -/
def intRange (lo hi : ℤ) : List ℤ :=
  if _h : lo ≤ hi then lo :: intRange (lo + 1) hi else []
termination_by (hi + 1 - lo).toNat
decreasing_by omega

/-- `queryRadius(position, radius)`: gather the buckets of every cell within
`ceil(radius / cellSize)` cells of the query's cell in all three axes. -/
def queryRadius (sg : SpatialGrid K α) (p : Vec3 K) (radius : K) : List α :=
  let cellRadius := ⌈radius / sg.cellSize⌉
  let c := cellKeyV sg.cellSize p
  (intRange (-cellRadius) cellRadius).flatMap fun dx =>
    (intRange (-cellRadius) cellRadius).flatMap fun dy =>
      (intRange (-cellRadius) cellRadius).flatMap fun dz =>
        getBucket sg.grid (c.1 + dx, c.2.1 + dy, c.2.2 + dz)

/-- `clear()`: remove all buckets. -/
def clear (sg : SpatialGrid K α) : SpatialGrid K α := { sg with grid := [] }

/-- `size()`: total number of items across all buckets. -/
def size (sg : SpatialGrid K α) : ℕ :=
  (sg.grid.map (fun e => e.2.length)).sum

/-- Build a grid by inserting a list of (position, item) pairs in order into
a freshly created grid (the rebuild-every-tick pattern
`grid.clear(); for ... grid.insert(...)`). -/
def build (cellSize : K) (minB maxB : Vec3 K) (ps : List (Vec3 K × α)) :
    SpatialGrid K α :=
  ps.foldl (fun g pr => g.insert pr.1 pr.2) (create cellSize minB maxB)

end SpatialGrid

/-! ## Simulation settings (src/settings.ts, class `SimulationSettings`)

Only the parameters read by the simulation core are modelled; purely visual
parameters (colors, opacities, camera, ...) are omitted.  `maxStars` and
`starBirthPopulationThreshold` are natural numbers (after `sanitize()` both
are rounded non-negative integers) compared against `stars.length`. -/

structure Settings where
  activationChance : ℝ
  deactivationChance : ℝ
  minDistanceFromCenter : ℝ
  waveSpeed : ℝ
  maxConnectionDistance : ℝ
  starBirthReplacementRatio : ℝ
  starBirthTimeDivisor : ℝ
  starBirthPopulationThreshold : ℕ
  maxStars : ℕ
  dustCloudMinRadius : ℝ
  dustCloudRadiusRange : ℝ
  starMinLifetime : ℝ
  starLifetimeRange : ℝ
  starLifeSupportProbability : ℝ
  starEmissionMinInterval : ℝ
  starEmissionIntervalRange : ℝ

/-! ## Entities (src/entities.ts)

`Star` keeps the simulation-relevant fields of the TypeScript class; mesh,
color and light state are rendering-only.  `Math.random()` draws made by the
constructor and by `update` are passed in as explicit oracle arguments. -/

/-- Simulation state of a star. -/
structure Star where
  id : ℕ
  position : Vec3 ℝ
  galaxyCenter : Vec3 ℝ
  age : ℝ
  lifetime : ℝ
  hasDormantPlanet : Bool
  isActive : Bool
  activationTime : Option ℝ
  emissionTimer : ℝ
  emissionInterval : ℝ
  isEmitting : Bool
  canSupportLife : Bool
  isGoingSupernova : Bool
  isObscured : Bool

/-- The `Star` constructor: age 0, dormant, no activation time, lifetime and
emission cadence drawn from the oracle values `rLifetime rLife rTimer
rInterval` (each standing for one `Math.random()` call). -/
noncomputable def Star.init (id : ℕ) (position galaxyCenter : Vec3 ℝ) (st : Settings)
    (rLifetime rLife rTimer rInterval : ℝ) : Star where
  id := id
  position := position
  galaxyCenter := galaxyCenter
  age := 0
  lifetime := st.starMinLifetime + rLifetime * st.starLifetimeRange
  hasDormantPlanet := false
  isActive := false
  activationTime := none
  emissionTimer := rTimer * st.starEmissionIntervalRange
  emissionInterval := rInterval * st.starEmissionIntervalRange + st.starEmissionMinInterval
  isEmitting := false
  canSupportLife := decide (rLife > 1 - st.starLifeSupportProbability)
  isGoingSupernova := false
  isObscured := false

/-- `Star.isAlive()`: `age < lifetime`. -/
def Star.isAlive (s : Star) : Prop := s.age < s.lifetime

noncomputable instance : DecidablePred Star.isAlive := fun s =>
  inferInstanceAs (Decidable (s.age < s.lifetime))

/-- Planar distance of a star from its galaxy center, as computed twice in
`Star.update` (`Math.sqrt(dx*dx + dz*dz)` on the x and z components). -/
noncomputable def Star.distFromCenter (s : Star) : ℝ :=
  planarDist s.position s.galaxyCenter

/-- The civilization-emergence / dormancy part of `Star.update` (everything
after the supernova check and the cosmetic aging fade).  `rAct` is the
single `Math.random()` draw made by whichever of the activation /
deactivation branches runs. -/
noncomputable def Star.updateLife (st : Settings) (dt now rAct : ℝ) (s : Star) : Star :=
  if s.isActive = false ∧ s.hasDormantPlanet = false ∧ s.canSupportLife = true then
    if s.distFromCenter ≥ st.minDistanceFromCenter ∧ rAct < st.activationChance * dt then
      { s with isActive := true, activationTime := some now, emissionTimer := 0 }
    else s
  else if s.isActive = true then
    let s1 :=
      if rAct < st.deactivationChance * dt then
        { s with isActive := false, isEmitting := false, activationTime := none,
                 hasDormantPlanet := true }
      else s
    let t := s1.emissionTimer - dt
    if t ≤ 0 then
      { s1 with
        isEmitting := if s.distFromCenter ≥ st.minDistanceFromCenter then true else s1.isEmitting,
        emissionTimer := s1.emissionInterval }
    else { s1 with emissionTimer := t }
  else s

/-- `Star.update(deltaTime)`.  `now` is `Date.now() / 1000`; `rSup` is the
supernova draw made when the star has reached the end of its lifetime, `rAct`
the activation/deactivation draw.  The cosmetic opacity fade is omitted
(it touches only the mesh material). -/
noncomputable def Star.update (st : Settings) (dt now rSup rAct : ℝ) (s : Star) : Star :=
  let s1 : Star := { s with age := s.age + dt }
  if s1.age ≥ s1.lifetime ∧ s1.isGoingSupernova = false ∧ rSup < st.activationChance then
    { s1 with isGoingSupernova := true }
  else
    Star.updateLife st dt now rAct s1

/-- `Star.applyDustObscuration(insideCloud, behindCloud)` restricted to its
simulation-visible effect: the `isObscured` flag (the early return when the
flag is unchanged, then the material/light updates). -/
def Star.applyDustObscuration (s : Star) (insideCloud behindCloud : Bool) : Star :=
  let obscured := insideCloud || behindCloud
  if obscured = s.isObscured then s else { s with isObscured := obscured }

/-- A dust cloud (`DustCloud`): fixed position and radius. -/
structure DustCloud where
  position : Vec3 ℝ
  radius : ℝ

/-- A connection between two stars.  The source stores references to the two
`Star` objects; their identity for deduplication and pruning is always taken
through `.id`, so the model records the two star ids. -/
structure Connection where
  star1 : ℕ
  star2 : ℕ
deriving DecidableEq

/-! ## NetworkManager (src/networkManager.ts)

The manager's per-tick pipeline.  Radio waves are not modelled: the wave
phases read and write only the wave list, never stars, connections or dust
clouds.  Scene/mesh disposal is rendering-only. -/

/-- The fixed bounds passed to every grid constructor in
`NetworkManager`'s constructor (`new Vector3(-1000, -100, -1000)` and
`new Vector3(1000, 100, 1000)`); stored but never read. -/
def managerMinBounds : Vec3 ℝ := ⟨-1000, -100, -1000⟩

/-- See `managerMinBounds`. -/
def managerMaxBounds : Vec3 ℝ := ⟨1000, 100, 1000⟩

/-- Manager state: the star, connection and dust-cloud collections. -/
structure Manager where
  stars : List Star
  conns : List Connection
  clouds : List DustCloud

/-- Does a connection for the unordered pair of ids already exist?
(`this.connections.some(c => (c.star1.id === A && c.star2.id === B) ||
(c.star1.id === B && c.star2.id === A))`.) -/
def connExists (conns : List Connection) (i j : ℕ) : Prop :=
  ∃ c ∈ conns, (c.star1 = i ∧ c.star2 = j) ∨ (c.star1 = j ∧ c.star2 = i)

instance (conns : List Connection) (i j : ℕ) : Decidable (connExists conns i j) :=
  inferInstanceAs (Decidable (∃ c ∈ conns, _ ∨ _))

/-- `isStarInDustCloud`: the star's exact position is strictly inside some
cloud (`distance < cloud.radius`). -/
noncomputable def isStarInDustCloud (clouds : List DustCloud) (s : Star) : Prop :=
  ∃ c ∈ clouds, dist3 s.position c.position < c.radius

/-- The segment length `length = direction.length()` computed by
`isBlockedByDust`. -/
noncomputable def segLen (pA pB : Vec3 ℝ) : ℝ := vlen (Vec3.sub pB pA)

/-- The normalized segment direction computed by `isBlockedByDust`
(`direction.normalize()`); `normalize()` of the zero vector yields the zero
vector, matching division by zero in `ℝ`. -/
noncomputable def segDir (pA pB : Vec3 ℝ) : Vec3 ℝ :=
  (Vec3.sub pB pA).divScalar (segLen pA pB)

/-- The projection `projectionLength = toCloud.dot(direction)` of a cloud
center onto the segment direction. -/
noncomputable def segProj (pA pB q : Vec3 ℝ) : ℝ :=
  Vec3.dot (Vec3.sub q pA) (segDir pA pB)

/-- `isBlockedByDust(pointA, pointB)`: some cloud's sphere meets the segment,
where a cloud is skipped when the projection of its center onto the segment
direction falls outside `[0, length]`, and otherwise blocks when the closest
point on the line is strictly within its radius. -/
noncomputable def isBlockedByDust (clouds : List DustCloud) (pA pB : Vec3 ℝ) : Prop :=
  ∃ c ∈ clouds,
    ¬ segProj pA pB c.position < 0 ∧
    ¬ segProj pA pB c.position > segLen pA pB ∧
    dist3 (pA.addScaled (segDir pA pB) (segProj pA pB c.position)) c.position < c.radius

noncomputable instance (clouds : List DustCloud) (s : Star) :
    Decidable (isStarInDustCloud clouds s) :=
  inferInstanceAs (Decidable (∃ c ∈ clouds, dist3 s.position c.position < c.radius))

noncomputable instance (clouds : List DustCloud) (pA pB : Vec3 ℝ) :
    Decidable (isBlockedByDust clouds pA pB) :=
  inferInstanceAs (Decidable (∃ c ∈ clouds, _ ∧ _ ∧ _))

/-- `createConnection(starA, starB)`: no-op if the unordered pair is already
connected, the stars are too far apart, either star sits inside a dust
cloud, or the segment between them is blocked; otherwise append the new
connection. -/
noncomputable def createConnection (st : Settings) (clouds : List DustCloud)
    (conns : List Connection) (starA starB : Star) : List Connection :=
  if connExists conns starA.id starB.id then conns
  else if dist3 starA.position starB.position > st.maxConnectionDistance then conns
  else if isStarInDustCloud clouds starA ∨ isStarInDustCloud clouds starB then conns
  else if isBlockedByDust clouds starA.position starB.position then conns
  else conns ++ [⟨starA.id, starB.id⟩]

/-- The consistent pair key `"min-max"` used for within-tick deduplication. -/
def pairKey (i j : ℕ) : ℕ × ℕ := (min i j, max i j)

/-- Body of the inner handshake loop (`for (const starB of nearbyStars)`),
threading the `checkedPairs` set (as a list of keys) and the connection
list.  `starA === starB` is modelled as id equality: star ids are allocated
by a strictly increasing counter, so distinct live objects never share an
id. -/
noncomputable def handshakeStep (st : Settings) (clouds : List DustCloud) (currentTime : ℝ)
    (starA : Star) (acc : List (ℕ × ℕ) × List Connection) (starB : Star) :
    List (ℕ × ℕ) × List Connection :=
  if starA.id = starB.id then acc
  else if pairKey starA.id starB.id ∈ acc.1 then acc
  else
    let checked := pairKey starA.id starB.id :: acc.1
    if dist3 starA.position starB.position > st.maxConnectionDistance then (checked, acc.2)
    else if starA.activationTime = none ∨ starB.activationTime = none then (checked, acc.2)
    else if
      currentTime - starA.activationTime.getD 0 ≥
          2 * dist3 starA.position starB.position / st.waveSpeed ∧
      currentTime - starB.activationTime.getD 0 ≥
          2 * dist3 starA.position starB.position / st.waveSpeed then
      (checked, createConnection st clouds acc.2 starA starB)
    else (checked, acc.2)

/-- The stars indexed for the handshake:
`this.stars.filter(s => s.isActive && s.activationTime !== null)`. -/
def activeStars (stars : List Star) : List Star :=
  stars.filter (fun s => s.isActive && s.activationTime.isSome)

/-- Rebuild of the star grid: cell size `maxConnectionDistance`, every
active star inserted at its position. -/
noncomputable def buildStarGrid (st : Settings) (active : List Star) : SpatialGrid ℝ Star :=
  SpatialGrid.build st.maxConnectionDistance managerMinBounds managerMaxBounds
    (active.map (fun s => (s.position, s)))

/-- The outer loop of the handshake phase (`for (const starA of activeStars)`),
threading the (checkedPairs, connections) accumulator. -/
noncomputable def handshakeOuter (st : Settings) (clouds : List DustCloud) (currentTime : ℝ)
    (grid : SpatialGrid ℝ Star) (acc : List (ℕ × ℕ) × List Connection)
    (active : List Star) : List (ℕ × ℕ) × List Connection :=
  active.foldl
    (fun acc starA =>
      (grid.queryRadius starA.position st.maxConnectionDistance).foldl
        (handshakeStep st clouds currentTime starA) acc)
    acc

/-- The two-way handshake phase of `NetworkManager.update`: rebuild the star
grid from the active stars, then for each active star query its neighborhood
within `maxConnectionDistance` and run the pair check. -/
noncomputable def handshakePhase (st : Settings) (clouds : List DustCloud)
    (stars : List Star) (conns : List Connection) (currentTime : ℝ) : List Connection :=
  (handshakeOuter st clouds currentTime (buildStarGrid st (activeStars stars))
    ([], conns) (activeStars stars)).2

/-- Phase 1 of `NetworkManager.update`: update every star (each star's two
potential draws come from the oracles `rSup`, `rAct` at the star's index),
then `consumeEmission()` clears `isEmitting` (the emitted wave is outside
the model) and the supernova hook clears `isGoingSupernova`. -/
noncomputable def starUpdatePhase (st : Settings) (dt now : ℝ) (rSup rAct : ℕ → ℝ)
    (stars : List Star) : List Star :=
  stars.enum.map (fun p =>
    let s := Star.update st dt now (rSup p.1) (rAct p.1) p.2
    { s with isEmitting := false, isGoingSupernova := false })

/-- Ids collected into the `deadStars` set during the dead-star prune. -/
noncomputable def deadIds (stars : List Star) : List ℕ :=
  (stars.filter (fun s => decide (¬ s.isAlive))).map (fun s => s.id)

/-- Phase 2: remove dead stars from the star collection. -/
noncomputable def pruneDeadPhase (stars : List Star) : List Star :=
  stars.filter (fun s => decide s.isAlive)

/-- Phase 3, star birth.  The population gates and the Bernoulli draw follow
the source.  On success the source calls `createSpiralGalaxy(galaxy.config, 1)`,
which mis-binds the galaxy's `GalaxyConfig` to the `center : Vector3`
parameter and leaves `radius`/`arms` undefined, so the single spawned star's
placement does not follow any galaxy's placement rule; the spawned star is
therefore supplied as an oracle `birthStar`. -/
noncomputable def birthPhase (st : Settings) (dt rBirth : ℝ) (birthStar : Star)
    (stars : List Star) : List Star :=
  if stars.length < st.maxStars ∧ stars.length < st.starBirthPopulationThreshold ∧
      rBirth < st.starBirthReplacementRatio * dt / st.starBirthTimeDivisor then
    stars ++ [birthStar]
  else stars

/-- Current `isActive` of the star object a connection references.  In the
source a connection aliases its endpoint `Star` objects, which this tick's
phase 1 has already mutated; here the endpoint's post-update state is looked
up by id in the phase-1 output (which still contains the stars that died
this tick, as the source's object references do). -/
noncomputable def starActive (updatedStars : List Star) (i : ℕ) : Bool :=
  ((updatedStars.find? (fun s => decide (s.id = i))).map Star.isActive).getD false

/-- Phase 4: remove connections whose endpoints have become inactive or
died. -/
noncomputable def connPrunePhase (updatedStars : List Star) (dead : List ℕ)
    (conns : List Connection) : List Connection :=
  conns.filter (fun c =>
    starActive updatedStars c.star1 && starActive updatedStars c.star2 &&
    !(dead.contains c.star1) && !(dead.contains c.star2))

/-- The dust grid: cell size `dustCloudMinRadius + dustCloudRadiusRange`,
each cloud inserted at its position when it is generated.  The grid is
static, so building it from the cloud list reproduces its contents. -/
noncomputable def dustGridOf (st : Settings) (clouds : List DustCloud) :
    SpatialGrid ℝ DustCloud :=
  SpatialGrid.build (st.dustCloudMinRadius + st.dustCloudRadiusRange)
    managerMinBounds managerMaxBounds (clouds.map (fun c => (c.position, c)))

/-- The dust-obscuration phase: for every star, query the dust grid within
the maximal cloud radius and mark the star obscured when some candidate
cloud's planar (x,z) distance is within its radius. -/
noncomputable def obscurationPhase (st : Settings) (clouds : List DustCloud)
    (stars : List Star) : List Star :=
  let grid := dustGridOf st clouds
  stars.map (fun s =>
    let nearby := grid.queryRadius s.position (st.dustCloudMinRadius + st.dustCloudRadiusRange)
    s.applyDustObscuration
      (nearby.any (fun c => decide (planarDist s.position c.position ≤ c.radius))) false)

/-- `NetworkManager.update(deltaTime)`: the full per-tick pipeline in source
order — star updates, dead-star prune, star birth, connection prune,
(waves, outside the model), grid rebuilds and handshake, dust obscuration.
`now` is `Date.now() / 1000`. -/
noncomputable def Manager.update (st : Settings) (m : Manager) (dt now : ℝ)
    (rSup rAct : ℕ → ℝ) (rBirth : ℝ) (birthStar : Star) : Manager :=
  let stars1 := starUpdatePhase st dt now rSup rAct m.stars
  let dead := deadIds stars1
  let stars2 := pruneDeadPhase stars1
  let stars3 := birthPhase st dt rBirth birthStar stars2
  let conns1 := connPrunePhase stars1 dead m.conns
  let conns2 := handshakePhase st m.clouds stars3 conns1 now
  { stars := obscurationPhase st m.clouds stars3, conns := conns2, clouds := m.clouds }

/-- The manager state part-way through `update`, immediately after the
dead-star prune and before the birth and connection-prune phases: the point
in the tick at which dead entities have just been removed from the star
collection.  The preceding phases (star updates, dead-star splice) do not
touch the connection collection, which is still the tick-entry one. -/
noncomputable def Manager.updateAfterPrune (st : Settings) (m : Manager) (dt now : ℝ)
    (rSup rAct : ℕ → ℝ) : Manager :=
  { stars := pruneDeadPhase (starUpdatePhase st dt now rSup rAct m.stars),
    conns := m.conns, clouds := m.clouds }

/-! ## Auxiliary definitions used by the claim statements -/

/-- One call in a `SpatialGrid` call sequence (the mutating operations;
`query`/`queryRadius`/`size` are read-only and are compared directly on the
resulting states). -/
inductive GridOp (K α : Type) where
  | insert (p : Vec3 K) (item : α)
  | clear

/-- Apply one operation to a grid. -/
def applyGridOp {K α : Type} [LinearOrderedField K] [FloorRing K]
    (sg : SpatialGrid K α) : GridOp K α → SpatialGrid K α
  | .insert p item => sg.insert p item
  | .clear => sg.clear

/-- Run a call sequence left to right. -/
def runGridOps {K α : Type} [LinearOrderedField K] [FloorRing K]
    (sg : SpatialGrid K α) (ops : List (GridOp K α)) : SpatialGrid K α :=
  ops.foldl applyGridOp sg

/-- The timing/occlusion conditions checked inside the handshake pair loop
and `createConnection`: activation timestamps present, within
`maxConnectionDistance`, both continuously active for at least the
round-trip time `2 * distance / waveSpeed`, and not occluded. -/
noncomputable def handshakeTimingOK (st : Settings) (clouds : List DustCloud) (t : ℝ)
    (A B : Star) : Prop :=
  ∃ ta tb, A.activationTime = some ta ∧ B.activationTime = some tb ∧
    dist3 A.position B.position ≤ st.maxConnectionDistance ∧
    t - ta ≥ 2 * dist3 A.position B.position / st.waveSpeed ∧
    t - tb ≥ 2 * dist3 A.position B.position / st.waveSpeed ∧
    ¬ isStarInDustCloud clouds A ∧ ¬ isStarInDustCloud clouds B ∧
    ¬ isBlockedByDust clouds A.position B.position

/-- All conditions under which the per-tick handshake creates a connection
between two specific star records, exactly as the source checks them: both
currently active, and `handshakeTimingOK`. -/
noncomputable def handshakeOK (st : Settings) (clouds : List DustCloud) (t : ℝ)
    (A B : Star) : Prop :=
  A.isActive = true ∧ B.isActive = true ∧ handshakeTimingOK st clouds t A B

/-- At most one connection per unordered star-id pair. -/
def uniquePairs (conns : List Connection) : Prop :=
  conns.Pairwise (fun c d => pairKey c.star1 c.star2 ≠ pairKey d.star1 d.star2)

/-- Manager states reachable from a fresh manager (whose connection list is
empty) by any sequence of `update` and `createConnection` calls. -/
inductive Reachable (st : Settings) : Manager → Prop where
  | init (stars : List Star) (clouds : List DustCloud) :
      Reachable st ⟨stars, [], clouds⟩
  | step_update (m : Manager) (dt now : ℝ) (rSup rAct : ℕ → ℝ) (rBirth : ℝ)
      (birthStar : Star) : Reachable st m →
      Reachable st (Manager.update st m dt now rSup rAct rBirth birthStar)
  | step_create (m : Manager) (A B : Star) : Reachable st m →
      Reachable st { m with conns := createConnection st m.clouds m.conns A B }

/-- Star states reachable from the constructor by `update(deltaTime)` calls
with non-negative `deltaTime`. -/
inductive StarReachable (st : Settings) : Star → Prop where
  | init (id : ℕ) (position galaxyCenter : Vec3 ℝ)
      (rLifetime rLife rTimer rInterval : ℝ) :
      StarReachable st (Star.init id position galaxyCenter st rLifetime rLife rTimer rInterval)
  | step (s : Star) (dt now rSup rAct : ℝ) : 0 ≤ dt → StarReachable st s →
      StarReachable st (Star.update st dt now rSup rAct s)

/-- Settings used by the concrete scenarios: the propagation/connection
parameters from the spec's scenario (`propagationSpeed = 5`,
`maxConnectionDistance = 20`), the remaining fields at the source defaults
from `SimulationSettings`. -/
noncomputable def scenarioSettings : Settings where
  activationChance := 0.0005
  deactivationChance := 0.0005
  minDistanceFromCenter := 50
  waveSpeed := 5
  maxConnectionDistance := 20
  starBirthReplacementRatio := 0.10
  starBirthTimeDivisor := 60
  starBirthPopulationThreshold := 5000
  maxStars := 50000
  dustCloudMinRadius := 1
  dustCloudRadiusRange := 0
  starMinLifetime := 60
  starLifetimeRange := 120
  starLifeSupportProbability := 0.4
  starEmissionMinInterval := 5
  starEmissionIntervalRange := 10

/-- A concrete star used by scenario evaluations: `sA i pos active t0` is a
star with the given id, position, activity and activation time, far from its
galaxy center, with a long lifetime. -/
noncomputable def sampleStar (i : ℕ) (pos : Vec3 ℝ) (active : Bool) (t0 : Option ℝ) : Star where
  id := i
  position := pos
  galaxyCenter := ⟨500, 0, 500⟩
  age := 1
  lifetime := 1000
  hasDormantPlanet := false
  isActive := active
  activationTime := t0
  emissionTimer := 1
  emissionInterval := 6
  isEmitting := false
  canSupportLife := true
  isGoingSupernova := false
  isObscured := false

/-- A concrete star that has exceeded its lifetime (used by the supernova
and prune scenarios). -/
noncomputable def agedStar : Star where
  id := 7
  position := ⟨100, 0, 0⟩
  galaxyCenter := ⟨0, 0, 0⟩
  age := 100
  lifetime := 50
  hasDormantPlanet := false
  isActive := false
  activationTime := none
  emissionTimer := 1
  emissionInterval := 6
  isEmitting := false
  canSupportLife := false
  isGoingSupernova := false
  isObscured := false

/-- Star A of the spec's handshake scenario: at the origin, activated at
t = 0. -/
noncomputable def scenarioStarA : Star := sampleStar 0 ⟨0, 0, 0⟩ true (some 0)

/-- Star B of the spec's handshake scenario: at (10, 0, 0), activated at
t = 0. -/
noncomputable def scenarioStarB : Star := sampleStar 1 ⟨10, 0, 0⟩ true (some 0)

/-- Modelled from the spec: the claim's occluder segment test, in which the
closest point of the segment to the sphere center is obtained by clamping
the projection parameter to the segment (`[0, length]`) instead of skipping
the occluder, with strict comparison against the radius. -/
noncomputable def specSegmentBlocked (clouds : List DustCloud) (pA pB : Vec3 ℝ) : Prop :=
  ∃ c ∈ clouds,
    dist3 (pA.addScaled (segDir pA pB) (max 0 (min (segProj pA pB c.position) (segLen pA pB))))
      c.position < c.radius

/-- Modelled from the spec: the same clamped segment test as
`specSegmentBlocked` but with the claim's non-strict comparison (occluded
when the clamped closest distance is at most the radius). -/
noncomputable def specSegmentBlockedLe (clouds : List DustCloud) (pA pB : Vec3 ℝ) : Prop :=
  ∃ c ∈ clouds,
    dist3 (pA.addScaled (segDir pA pB) (max 0 (min (segProj pA pB c.position) (segLen pA pB))))
      c.position ≤ c.radius

/-- The occluder of the boundary counterexample: radius 5 centered at
(5, 5, 0), so that the segment from (0,0,0) to (10,0,0) passes at distance
exactly 5 from its center. -/
noncomputable def cexCloud : DustCloud := ⟨⟨5, 5, 0⟩, 5⟩

/-! ## Grid lemmas -/

namespace SpatialGrid

variable {K : Type} [LinearOrderedField K] [FloorRing K] {α : Type}

theorem getBucket_setBucket (g : List ((ℤ × ℤ × ℤ) × List α)) (k k' : ℤ × ℤ × ℤ)
    (v : List α) :
    getBucket (setBucket g k v) k' = if k' = k then v else getBucket g k' := by
  induction g with
  | nil =>
      by_cases h : k' = k
      · subst h
        simp [setBucket, getBucket]
      · simp [setBucket, getBucket, h, if_neg (Ne.symm h)]
  | cons e rest ih =>
      by_cases he : e.1 = k
      · by_cases h : k' = k
        · subst h
          simp [setBucket, getBucket, he]
        · have hek : e.1 ≠ k' := by rw [he]; exact Ne.symm h
          simp [setBucket, getBucket, he, h, hek, if_neg (Ne.symm h)]
      · by_cases h : k' = k
        · subst h
          have hek : e.1 ≠ k' := he
          simp [setBucket, getBucket, he, hek, ih]
        · simp [setBucket, getBucket, he, h, ih]

theorem cellSize_insert (sg : SpatialGrid K α) (p : Vec3 K) (it : α) :
    (sg.insert p it).cellSize = sg.cellSize := rfl

theorem mem_getBucket_insert (sg : SpatialGrid K α) (p : Vec3 K) (it x : α)
    (k : ℤ × ℤ × ℤ) :
    x ∈ getBucket (sg.insert p it).grid k ↔
      x ∈ getBucket sg.grid k ∨ (cellKeyV sg.cellSize p = k ∧ x = it) := by
  show x ∈ getBucket (setBucket sg.grid _ _) k ↔ _
  rw [getBucket_setBucket]
  by_cases h : k = cellKeyV sg.cellSize p <;> simp [h, eq_comm]

theorem mem_getBucket_foldl (ps : List (Vec3 K × α)) (sg : SpatialGrid K α)
    (x : α) (k : ℤ × ℤ × ℤ) :
    x ∈ getBucket (ps.foldl (fun g pr => g.insert pr.1 pr.2) sg).grid k ↔
      x ∈ getBucket sg.grid k ∨ ∃ p, (p, x) ∈ ps ∧ cellKeyV sg.cellSize p = k := by
  induction ps generalizing sg with
  | nil => simp
  | cons pr rest ih =>
      rw [List.foldl_cons, ih, mem_getBucket_insert]
      constructor
      · rintro (((h | ⟨h1, rfl⟩) | ⟨p, hp, hk⟩))
        · exact Or.inl h
        · exact Or.inr ⟨pr.1, by simp, h1⟩
        · exact Or.inr ⟨p, by simp [hp], hk⟩
      · rintro (h | ⟨p, hp, hk⟩)
        · exact Or.inl (Or.inl h)
        · rcases List.mem_cons.mp hp with h1 | h1
          · cases h1
            exact Or.inl (Or.inr ⟨hk, rfl⟩)
          · exact Or.inr ⟨p, h1, hk⟩

theorem cellSize_foldl (ps : List (Vec3 K × α)) (sg : SpatialGrid K α) :
    (ps.foldl (fun g pr => g.insert pr.1 pr.2) sg).cellSize = sg.cellSize := by
  induction ps generalizing sg with
  | nil => rfl
  | cons pr rest ih => rw [List.foldl_cons, ih, cellSize_insert]

theorem cellSize_build (cs : K) (b1 b2 : Vec3 K) (ps : List (Vec3 K × α)) :
    (build cs b1 b2 ps).cellSize = cs :=
  cellSize_foldl ps (create cs b1 b2)

theorem mem_getBucket_build (cs : K) (b1 b2 : Vec3 K) (ps : List (Vec3 K × α))
    (x : α) (k : ℤ × ℤ × ℤ) :
    x ∈ getBucket (build cs b1 b2 ps).grid k ↔
      ∃ p, (p, x) ∈ ps ∧ cellKeyV cs p = k := by
  unfold build
  rw [mem_getBucket_foldl]
  simp [create, getBucket]

theorem mem_intRange (lo hi a : ℤ) : a ∈ intRange lo hi ↔ lo ≤ a ∧ a ≤ hi := by
  generalize hn : (hi + 1 - lo).toNat = n
  induction n generalizing lo with
  | zero =>
      rw [intRange]
      have h : ¬ lo ≤ hi := by omega
      simp [h]
      omega
  | succ n ih =>
      rw [intRange]
      have h : lo ≤ hi := by omega
      rw [dif_pos h, List.mem_cons, ih (lo + 1) (by omega)]
      omega

theorem mem_queryRadius (sg : SpatialGrid K α) (p : Vec3 K) (r : K) (x : α) :
    x ∈ sg.queryRadius p r ↔
      ∃ dx dy dz : ℤ,
        |dx| ≤ ⌈r / sg.cellSize⌉ ∧ |dy| ≤ ⌈r / sg.cellSize⌉ ∧ |dz| ≤ ⌈r / sg.cellSize⌉ ∧
        x ∈ getBucket sg.grid
          ((cellKeyV sg.cellSize p).1 + dx, (cellKeyV sg.cellSize p).2.1 + dy,
            (cellKeyV sg.cellSize p).2.2 + dz) := by
  unfold queryRadius
  simp only [List.mem_flatMap, mem_intRange]
  constructor
  · rintro ⟨dx, ⟨hx1, hx2⟩, dy, ⟨hy1, hy2⟩, dz, ⟨hz1, hz2⟩, hmem⟩
    exact ⟨dx, dy, dz, abs_le.mpr ⟨by omega, hx2⟩, abs_le.mpr ⟨by omega, hy2⟩,
      abs_le.mpr ⟨by omega, hz2⟩, hmem⟩
  · rintro ⟨dx, dy, dz, hx, hy, hz, hmem⟩
    rw [abs_le] at hx hy hz
    exact ⟨dx, ⟨by omega, by omega⟩, dy, ⟨by omega, by omega⟩, dz, ⟨by omega, by omega⟩, hmem⟩

/-- Membership characterization for a radius query against a grid rebuilt
from a list of (position, item) pairs: exactly the items whose cell lies in
the scanned cube of cells around the query's cell. -/
theorem mem_queryRadius_build (cs : K) (b1 b2 : Vec3 K) (ps : List (Vec3 K × α))
    (q : Vec3 K) (r : K) (x : α) :
    x ∈ (build cs b1 b2 ps).queryRadius q r ↔
      ∃ p, (p, x) ∈ ps ∧
        |(cellKeyV cs p).1 - (cellKeyV cs q).1| ≤ ⌈r / cs⌉ ∧
        |(cellKeyV cs p).2.1 - (cellKeyV cs q).2.1| ≤ ⌈r / cs⌉ ∧
        |(cellKeyV cs p).2.2 - (cellKeyV cs q).2.2| ≤ ⌈r / cs⌉ := by
  rw [mem_queryRadius]
  simp only [cellSize_build, mem_getBucket_build]
  constructor
  · rintro ⟨dx, dy, dz, hx, hy, hz, p, hp, hk⟩
    refine ⟨p, hp, ?_, ?_, ?_⟩ <;> rw [hk] <;> simpa
  · rintro ⟨p, hp, hx, hy, hz⟩
    refine ⟨(cellKeyV cs p).1 - (cellKeyV cs q).1,
      (cellKeyV cs p).2.1 - (cellKeyV cs q).2.1,
      (cellKeyV cs p).2.2 - (cellKeyV cs q).2.2, hx, hy, hz, p, hp, ?_⟩
    simp only [Prod.ext_iff]
    omega

end SpatialGrid

/-! ## Arithmetic helpers -/

theorem floor_sub_floor_le_ceil {K : Type} [LinearOrderedField K] [FloorRing K]
    (u v w : K) (h : u - v ≤ w) : ⌊u⌋ - ⌊v⌋ ≤ ⌈w⌉ := by
  have h1 : (⌊u⌋ : K) ≤ u := Int.floor_le u
  have h2 : v < ⌊v⌋ + 1 := Int.lt_floor_add_one v
  have h3 : w ≤ (⌈w⌉ : K) := Int.le_ceil w
  have h4 : ((⌊u⌋ - ⌊v⌋ : ℤ) : K) < ((⌈w⌉ + 1 : ℤ) : K) := by
    push_cast
    linarith
  have h5 : (⌊u⌋ - ⌊v⌋ : ℤ) < ⌈w⌉ + 1 := by exact_mod_cast h4
  omega

theorem abs_floor_div_sub_le {K : Type} [LinearOrderedField K] [FloorRing K]
    (cs a b r : K) (hcs : 0 < cs) (h : |a - b| ≤ r) :
    |⌊a / cs⌋ - ⌊b / cs⌋| ≤ ⌈r / cs⌉ := by
  rw [abs_le] at h
  have ha : a / cs - b / cs ≤ r / cs := by
    rw [div_sub_div_same]
    exact (div_le_div_iff_of_pos_right hcs).mpr (by linarith)
  have hb : b / cs - a / cs ≤ r / cs := by
    rw [div_sub_div_same]
    exact (div_le_div_iff_of_pos_right hcs).mpr (by linarith)
  have h1 := floor_sub_floor_le_ceil (a / cs) (b / cs) (r / cs) ha
  have h2 := floor_sub_floor_le_ceil (b / cs) (a / cs) (r / cs) hb
  rw [abs_le]
  omega

theorem abs_le_of_sq_le_sq' {K : Type} [LinearOrderedField K]
    (a r : K) (hr : 0 ≤ r) (h : a ^ 2 ≤ r ^ 2) : |a| ≤ r := by
  rw [abs_le]
  constructor <;> nlinarith

theorem axis_bounds_of_distSq_le {K : Type} [LinearOrderedField K]
    (a b : Vec3 K) (r : K) (hr : 0 ≤ r) (h : Vec3.distSq a b ≤ r ^ 2) :
    |a.x - b.x| ≤ r ∧ |a.y - b.y| ≤ r ∧ |a.z - b.z| ≤ r := by
  unfold Vec3.distSq at h
  refine ⟨?_, ?_, ?_⟩ <;> apply abs_le_of_sq_le_sq' _ _ hr <;> nlinarith [sq_nonneg (a.x - b.x), sq_nonneg (a.y - b.y), sq_nonneg (a.z - b.z)]

/-! ## C1: radius queries have no false negatives -/

/-- C1: for every `SpatialGrid` state obtained by inserting a finite list of
(position, item) pairs, every query position and every non-negative radius,
`queryRadius` returns every inserted item whose true 3D distance from the
query position is at most the radius (no false negatives; membership of the
distance ball is phrased by squared distance, which over an ordered field is
equivalent to `dist ≤ r` for `r ≥ 0`).  The cell size is positive, as it is
for every grid the simulation constructs. -/
theorem queryRadius_no_false_negatives {α : Type} (cs : ℚ) (b1 b2 : Vec3 ℚ)
    (ps : List (Vec3 ℚ × α)) (q : Vec3 ℚ) (r : ℚ) (p : Vec3 ℚ) (x : α)
    (hcs : 0 < cs) (hr : 0 ≤ r) (hmem : (p, x) ∈ ps)
    (hdist : Vec3.distSq p q ≤ r ^ 2) :
    x ∈ (SpatialGrid.build cs b1 b2 ps).queryRadius q r := by
  rw [SpatialGrid.mem_queryRadius_build]
  obtain ⟨hx, hy, hz⟩ := axis_bounds_of_distSq_le p q r hr hdist
  refine ⟨p, hmem, ?_, ?_, ?_⟩ <;>
    simp only [SpatialGrid.cellKeyV, SpatialGrid.cellKey] <;>
    exact abs_floor_div_sub_le cs _ _ r hcs (by assumption)

/-- Witness for C1 at a concrete input. -/
theorem queryRadius_no_false_negatives_witness :
    (0 : ℕ) ∈ (SpatialGrid.build (1 : ℚ) ⟨-5, -5, -5⟩ ⟨5, 5, 5⟩
      [((⟨2, 0, 0⟩ : Vec3 ℚ), (0 : ℕ))]).queryRadius ⟨0, 0, 0⟩ 2 :=
  queryRadius_no_false_negatives 1 ⟨-5, -5, -5⟩ ⟨5, 5, 5⟩ _ ⟨0, 0, 0⟩ 2 ⟨2, 0, 0⟩ 0
    (by norm_num) (by norm_num) (by simp) (by norm_num [Vec3.distSq])

/-! ## C10: the constructor bounds have no effect -/

theorem runGridOps_congr {K α : Type} [LinearOrderedField K] [FloorRing K]
    (ops : List (GridOp K α)) (g1 g2 : SpatialGrid K α)
    (hcs : g1.cellSize = g2.cellSize) (hg : g1.grid = g2.grid) :
    (runGridOps g1 ops).cellSize = (runGridOps g2 ops).cellSize ∧
    (runGridOps g1 ops).grid = (runGridOps g2 ops).grid := by
  induction ops generalizing g1 g2 with
  | nil => exact ⟨hcs, hg⟩
  | cons op rest ih =>
      show (rest.foldl applyGridOp (applyGridOp g1 op)).cellSize = _ ∧
        (rest.foldl applyGridOp (applyGridOp g1 op)).grid = _
      cases op with
      | insert p it =>
          exact ih (g1.insert p it) (g2.insert p it)
            (by simp [SpatialGrid.insert, hcs])
            (by simp [SpatialGrid.insert, hcs, hg])
      | clear =>
          exact ih g1.clear g2.clear (by simp [SpatialGrid.clear, hcs])
            (by simp [SpatialGrid.clear, hg])

/-- C10: the `minBounds`/`maxBounds` constructor parameters have no effect:
running any sequence of `insert`/`clear` calls from two grids that differ
only in their bounds yields identical `grid` contents, identical `query`,
`queryRadius` and `size` results — in particular positions outside the
declared bounds are inserted and queried exactly like positions inside them
(nothing is clamped or rejected at the bounds). -/
theorem spatialGrid_bounds_no_effect {α : Type} (cs : ℚ) (mn1 mx1 mn2 mx2 : Vec3 ℚ)
    (ops : List (GridOp ℚ α)) :
    (runGridOps (SpatialGrid.create cs mn1 mx1) ops).cellSize
        = (runGridOps (SpatialGrid.create cs mn2 mx2) ops).cellSize ∧
    (runGridOps (SpatialGrid.create cs mn1 mx1) ops).grid
        = (runGridOps (SpatialGrid.create cs mn2 mx2) ops).grid ∧
    (∀ p, (runGridOps (SpatialGrid.create cs mn1 mx1) ops).query p
        = (runGridOps (SpatialGrid.create cs mn2 mx2) ops).query p) ∧
    (∀ p r, (runGridOps (SpatialGrid.create cs mn1 mx1) ops).queryRadius p r
        = (runGridOps (SpatialGrid.create cs mn2 mx2) ops).queryRadius p r) ∧
    (runGridOps (SpatialGrid.create cs mn1 mx1) ops).size
        = (runGridOps (SpatialGrid.create cs mn2 mx2) ops).size := by
  obtain ⟨h1, h2⟩ := runGridOps_congr ops (SpatialGrid.create cs mn1 mx1)
    (SpatialGrid.create cs mn2 mx2) rfl rfl
  refine ⟨h1, h2, ?_, ?_, ?_⟩
  · intro p
    simp [SpatialGrid.query, SpatialGrid.cellKeyV, h1, h2]
  · intro p r
    simp [SpatialGrid.queryRadius, SpatialGrid.cellKeyV, h1, h2]
  · simp [SpatialGrid.size, h2]

/-! ## Star lifecycle lemmas -/

theorem updateLife_inv (st : Settings) (dt now rAct : ℝ) (s : Star)
    (h1 : s.activationTime.isSome = true ↔ s.isActive = true)
    (h2 : s.hasDormantPlanet = true → s.isActive = false) :
    ((Star.updateLife st dt now rAct s).activationTime.isSome = true ↔
      (Star.updateLife st dt now rAct s).isActive = true) ∧
    ((Star.updateLife st dt now rAct s).hasDormantPlanet = true →
      (Star.updateLife st dt now rAct s).isActive = false) := by
  simp only [Star.updateLife]
  split_ifs <;> simp_all

theorem star_update_inv (st : Settings) (s : Star) (dt now rSup rAct : ℝ)
    (h1 : s.activationTime.isSome = true ↔ s.isActive = true)
    (h2 : s.hasDormantPlanet = true → s.isActive = false) :
    ((Star.update st dt now rSup rAct s).activationTime.isSome = true ↔
      (Star.update st dt now rSup rAct s).isActive = true) ∧
    ((Star.update st dt now rSup rAct s).hasDormantPlanet = true →
      (Star.update st dt now rSup rAct s).isActive = false) := by
  simp only [Star.update]
  split_ifs with h
  · simp_all
  · exact updateLife_inv st dt now rAct _ (by simp_all) (by simp_all)

theorem star_update_dormant (st : Settings) (s : Star) (dt now rSup rAct : ℝ)
    (hd : s.hasDormantPlanet = true) (hi : s.isActive = false) :
    (Star.update st dt now rSup rAct s).hasDormantPlanet = true ∧
    (Star.update st dt now rSup rAct s).isActive = false := by
  simp only [Star.update, Star.updateLife]
  split_ifs <;> simp_all

/-! ## C7: activation-time/activity invariant and single active epoch -/

/-- C7: for every star and every sequence of `update(deltaTime)` calls with
`deltaTime ≥ 0` starting from the constructor state, `activationTime` is
non-null iff `isActive`; a star with `hasDormantPlanet` set is inactive; and
from any dormant-spent state (`hasDormantPlanet` with the star inactive) a
further update keeps the star dormant-spent and inactive — so a star that
has deactivated never becomes active again. -/
theorem star_lifecycle_invariants (st : Settings) :
    (∀ s : Star, StarReachable st s →
      ((s.activationTime.isSome = true ↔ s.isActive = true) ∧
       (s.hasDormantPlanet = true → s.isActive = false))) ∧
    (∀ (s : Star) (dt now rSup rAct : ℝ), 0 ≤ dt →
      s.hasDormantPlanet = true → s.isActive = false →
      ((Star.update st dt now rSup rAct s).hasDormantPlanet = true ∧
       (Star.update st dt now rSup rAct s).isActive = false)) := by
  constructor
  · intro s hs
    induction hs with
    | init id position galaxyCenter rLifetime rLife rTimer rInterval =>
        simp [Star.init]
    | step s dt now rSup rAct hdt hs ih =>
        exact star_update_inv st s dt now rSup rAct ih.1 ih.2
  · intro s dt now rSup rAct hdt hd hi
    exact star_update_dormant st s dt now rSup rAct hd hi

/-- Witness for C7 at a concrete constructor state and a concrete update. -/
theorem star_lifecycle_invariants_witness :
    (((Star.init 0 ⟨0, 0, 0⟩ ⟨0, 0, 0⟩ scenarioSettings 0 0 0 0).activationTime.isSome = true ↔
        (Star.init 0 ⟨0, 0, 0⟩ ⟨0, 0, 0⟩ scenarioSettings 0 0 0 0).isActive = true) ∧
      ((Star.init 0 ⟨0, 0, 0⟩ ⟨0, 0, 0⟩ scenarioSettings 0 0 0 0).hasDormantPlanet = true →
        (Star.init 0 ⟨0, 0, 0⟩ ⟨0, 0, 0⟩ scenarioSettings 0 0 0 0).isActive = false)) ∧
    ((Star.update scenarioSettings 1 0 1 1
        { sampleStar 3 ⟨0, 0, 0⟩ false none with hasDormantPlanet := true }).hasDormantPlanet = true ∧
     (Star.update scenarioSettings 1 0 1 1
        { sampleStar 3 ⟨0, 0, 0⟩ false none with hasDormantPlanet := true }).isActive = false) :=
  ⟨(star_lifecycle_invariants scenarioSettings).1 _ (StarReachable.init 0 ⟨0, 0, 0⟩ ⟨0, 0, 0⟩ 0 0 0 0),
   (star_lifecycle_invariants scenarioSettings).2 _ 1 0 1 1 (by norm_num) (by simp [sampleStar]) (by simp [sampleStar])⟩

/-! ## C8: deltaTime scaling of the per-tick Bernoulli draws -/

theorem updateLife_isGoingSupernova (st : Settings) (dt now rAct : ℝ) (s : Star) :
    (Star.updateLife st dt now rAct s).isGoingSupernova = s.isGoingSupernova := by
  simp only [Star.updateLife]
  split_ifs <;> simp

/-- C8 counterexample: a star at the end of its lifetime, `deltaTime = 0.5`,
draw `0.0003`.  The code triggers the supernova (the draw is below the bare
`activationChance = 0.0005`) even though the draw is not below
`activationChance * deltaTime = 0.00025`, so the end-of-life supernova draw
is not scaled by `deltaTime` as the claim asserts. -/
theorem supernova_draw_not_dt_scaled :
    (Star.update scenarioSettings 0.5 0 0.0003 0 agedStar).isGoingSupernova = true ∧
    ¬ ((0.0003 : ℝ) < scenarioSettings.activationChance * 0.5) := by
  constructor
  · norm_num [Star.update, agedStar, scenarioSettings]
  · norm_num [scenarioSettings]

/-- C8 amended: the per-tick activation, deactivation and birth draws each
compare a uniform draw against the configured per-second rate multiplied by
`deltaTime` (never by a frame count), but the end-of-life supernova draw
compares against the bare configured chance, unscaled by `deltaTime`. -/
theorem bernoulli_draws_dt_scaling (st : Settings) :
    (∀ (s : Star) (dt now rSup rAct : ℝ),
      s.age + dt ≥ s.lifetime → s.isGoingSupernova = false →
      ((Star.update st dt now rSup rAct s).isGoingSupernova = true ↔
        rSup < st.activationChance)) ∧
    (∀ (s : Star) (dt now rSup rAct : ℝ),
      ¬ (s.age + dt ≥ s.lifetime ∧ s.isGoingSupernova = false ∧ rSup < st.activationChance) →
      s.isActive = false → s.hasDormantPlanet = false → s.canSupportLife = true →
      planarDist s.position s.galaxyCenter ≥ st.minDistanceFromCenter →
      ((Star.update st dt now rSup rAct s).isActive = true ↔
        rAct < st.activationChance * dt)) ∧
    (∀ (s : Star) (dt now rSup rAct : ℝ),
      ¬ (s.age + dt ≥ s.lifetime ∧ s.isGoingSupernova = false ∧ rSup < st.activationChance) →
      s.isActive = true →
      ((Star.update st dt now rSup rAct s).isActive = false ↔
        rAct < st.deactivationChance * dt)) ∧
    (∀ (dt rBirth : ℝ) (birthStar : Star) (stars : List Star),
      stars.length < st.maxStars → stars.length < st.starBirthPopulationThreshold →
      ((birthPhase st dt rBirth birthStar stars).length = stars.length + 1 ↔
        rBirth < st.starBirthReplacementRatio * dt / st.starBirthTimeDivisor)) := by
  refine ⟨?_, ?_, ?_, ?_⟩
  · intro s dt now rSup rAct hage hsup
    simp only [Star.update]
    split_ifs with h
    · simp_all
    · rw [updateLife_isGoingSupernova]
      simp_all
  · intro s dt now rSup rAct hno hia hdp hcl hdist
    simp only [Star.update]
    rw [if_neg (by simp_all)]
    simp only [Star.updateLife]
    rw [if_pos (by simp_all)]
    split_ifs with h
    · simp_all
    · have : ¬ rAct < st.activationChance * dt := by
        intro hr
        exact h ⟨by simpa [Star.distFromCenter] using hdist, hr⟩
      simp_all
  · intro s dt now rSup rAct hno hia
    simp only [Star.update]
    rw [if_neg (by simp_all)]
    simp only [Star.updateLife]
    rw [if_neg (by simp_all), if_pos (by simp_all : (_ : Star).isActive = true)]
    split_ifs <;> simp_all
  · intro dt rBirth birthStar stars hmax hthr
    simp only [birthPhase]
    split_ifs with h
    · simp_all
    · have : ¬ rBirth < st.starBirthReplacementRatio * dt / st.starBirthTimeDivisor :=
        fun hr => h ⟨hmax, hthr, hr⟩
      simp_all

/-- Witness for the amended C8 at concrete inputs (the birth conjunct). -/
theorem bernoulli_draws_dt_scaling_witness :
    (birthPhase scenarioSettings 1 0 agedStar []).length = ([] : List Star).length + 1 ↔
      (0 : ℝ) < scenarioSettings.starBirthReplacementRatio * 1 / scenarioSettings.starBirthTimeDivisor :=
  (bernoulli_draws_dt_scaling scenarioSettings).2.2.2 1 0 agedStar []
    (by norm_num [scenarioSettings]) (by norm_num [scenarioSettings])

/-! ## C4: occluder gating of connection creation -/

theorem sqrt_eval (a b : ℝ) (hb : 0 ≤ b) (h : b ^ 2 = a) : Real.sqrt a = b := by
  rw [← h, Real.sqrt_sq hb]

theorem segLen_nonneg (pA pB : Vec3 ℝ) : 0 ≤ segLen pA pB := Real.sqrt_nonneg _

theorem addScaled_zero (a d : Vec3 ℝ) : a.addScaled d 0 = a := by
  cases a
  cases d
  simp [Vec3.addScaled]

theorem segProj_of_segLen_zero (pA pB q : Vec3 ℝ) (h : segLen pA pB = 0) :
    segProj pA pB q = 0 := by
  simp [segProj, segDir, h, Vec3.divScalar, Vec3.dot]

theorem addScaled_segDir_segLen (pA pB : Vec3 ℝ) (h : segLen pA pB ≠ 0) :
    pA.addScaled (segDir pA pB) (segLen pA pB) = pB := by
  cases pA
  cases pB
  simp only [segDir, Vec3.sub, Vec3.divScalar, Vec3.addScaled, Vec3.mk.injEq]
  refine ⟨?_, ?_, ?_⟩ <;> rw [mul_comm, div_mul_cancel₀ _ h] <;> ring

/-- The occluder skip conditions of `createConnection` are extensionally the
claim's (strict) conditions with a clamped closest point: a projection left
of the segment clamps to the A endpoint (covered by the A-inside-cloud
check), one right of the segment clamps to the B endpoint. -/
theorem occluder_skip_iff_clamped (clouds : List DustCloud) (A B : Star) :
    (isStarInDustCloud clouds A ∨ isStarInDustCloud clouds B ∨
      isBlockedByDust clouds A.position B.position) ↔
    (isStarInDustCloud clouds A ∨ isStarInDustCloud clouds B ∨
      specSegmentBlocked clouds A.position B.position) := by
  constructor
  · rintro (h | h | ⟨c, hc, h1, h2, h3⟩)
    · exact Or.inl h
    · exact Or.inr (Or.inl h)
    · refine Or.inr (Or.inr ⟨c, hc, ?_⟩)
      rw [min_eq_left (not_lt.mp h2), max_eq_right (not_lt.mp h1)]
      exact h3
  · rintro (h | h | ⟨c, hc, h3⟩)
    · exact Or.inl h
    · exact Or.inr (Or.inl h)
    · by_cases hp : segProj A.position B.position c.position < 0
      · refine Or.inl ⟨c, hc, ?_⟩
        have hmin : min (segProj A.position B.position c.position)
            (segLen A.position B.position) = segProj A.position B.position c.position :=
          min_eq_left (le_trans (le_of_lt hp) (segLen_nonneg _ _))
        rw [hmin, max_eq_left (le_of_lt hp), addScaled_zero] at h3
        exact h3
      · by_cases hq : segProj A.position B.position c.position >
            segLen A.position B.position
        · refine Or.inr (Or.inl ⟨c, hc, ?_⟩)
          have hlen : segLen A.position B.position ≠ 0 := by
            intro h0
            rw [segProj_of_segLen_zero _ _ _ h0, h0] at hq
            exact lt_irrefl 0 hq
          have hmin : min (segProj A.position B.position c.position)
              (segLen A.position B.position) = segLen A.position B.position :=
            min_eq_right (le_of_lt hq)
          rw [hmin, max_eq_right (segLen_nonneg _ _),
            addScaled_segDir_segLen _ _ hlen] at h3
          exact h3
        · refine Or.inr (Or.inr ⟨c, hc, hp, hq, ?_⟩)
          rw [min_eq_left (not_lt.mp hq), max_eq_right (not_lt.mp hp)] at h3
          exact h3

/-- C4 counterexample: stars A(0,0,0) and B(10,0,0), an occluder of radius 5
centered at (5,5,0).  The clamped closest point of the segment is (5,0,0),
at distance exactly 5 ≤ 5 from the occluder center, so the claim asserts no
connection is created — yet `createConnection` creates one, because the
source compares strictly (`distanceToCloud < cloud.radius`). -/
theorem occluder_boundary_counterexample :
    specSegmentBlockedLe [cexCloud] (⟨0, 0, 0⟩ : Vec3 ℝ) ⟨10, 0, 0⟩ ∧
    (createConnection scenarioSettings [cexCloud] []
      (sampleStar 0 ⟨0, 0, 0⟩ true (some 0)) (sampleStar 1 ⟨10, 0, 0⟩ true (some 0))).length = 1 := by
  have hlen : segLen (⟨0, 0, 0⟩ : Vec3 ℝ) ⟨10, 0, 0⟩ = 10 := by
    simp only [segLen, vlen, Vec3.sub]
    exact sqrt_eval _ 10 (by norm_num) (by norm_num)
  have hdir : segDir (⟨0, 0, 0⟩ : Vec3 ℝ) ⟨10, 0, 0⟩ = ⟨1, 0, 0⟩ := by
    simp only [segDir, hlen, Vec3.sub, Vec3.divScalar]
    norm_num
  have hproj : segProj (⟨0, 0, 0⟩ : Vec3 ℝ) ⟨10, 0, 0⟩ ⟨5, 5, 0⟩ = 5 := by
    simp only [segProj, hdir, Vec3.sub, Vec3.dot]
    norm_num
  have hclosest : Vec3.addScaled (⟨0, 0, 0⟩ : Vec3 ℝ) ⟨1, 0, 0⟩ 5 = ⟨5, 0, 0⟩ := by
    simp [Vec3.addScaled]
  have hd5 : dist3 (⟨5, 0, 0⟩ : Vec3 ℝ) ⟨5, 5, 0⟩ = 5 := by
    simp only [dist3, Vec3.distSq]
    exact sqrt_eval _ 5 (by norm_num) (by norm_num)
  have hsqrt50 : ¬ Real.sqrt 50 < 5 := by
    rw [not_lt]
    exact (Real.le_sqrt (by norm_num) (by norm_num)).mpr (by norm_num)
  have hA : ¬ isStarInDustCloud [cexCloud] (sampleStar 0 ⟨0, 0, 0⟩ true (some 0)) := by
    rintro ⟨c, hc, hlt⟩
    simp only [List.mem_singleton] at hc
    subst hc
    revert hlt
    simp only [sampleStar, cexCloud, dist3, Vec3.distSq]
    rw [show ((0 : ℝ) - 5) ^ 2 + ((0 : ℝ) - 5) ^ 2 + ((0 : ℝ) - 0) ^ 2 = 50 by norm_num]
    exact hsqrt50
  have hB : ¬ isStarInDustCloud [cexCloud] (sampleStar 1 ⟨10, 0, 0⟩ true (some 0)) := by
    rintro ⟨c, hc, hlt⟩
    simp only [List.mem_singleton] at hc
    subst hc
    revert hlt
    simp only [sampleStar, cexCloud, dist3, Vec3.distSq]
    rw [show ((10 : ℝ) - 5) ^ 2 + ((0 : ℝ) - 5) ^ 2 + ((0 : ℝ) - 0) ^ 2 = 50 by norm_num]
    exact hsqrt50
  constructor
  · refine ⟨cexCloud, by simp, ?_⟩
    simp only [cexCloud]
    rw [hproj, hlen]
    norm_num [hdir, hclosest, hd5]
  · rw [createConnection]
    rw [if_neg (by simp [connExists])]
    rw [if_neg (by
      rw [not_lt]
      have : dist3 (sampleStar 0 ⟨0, 0, 0⟩ true (some 0)).position
          (sampleStar 1 ⟨10, 0, 0⟩ true (some 0)).position = 10 := by
        simp only [sampleStar, dist3, Vec3.distSq]
        exact sqrt_eval _ 10 (by norm_num) (by norm_num)
      rw [this]
      norm_num [scenarioSettings])]
    rw [if_neg (by
      rintro (h | h)
      · exact hA h
      · exact hB h)]
    rw [if_neg (by
      rintro ⟨c, hc, h1, h2, h3⟩
      simp only [List.mem_singleton] at hc
      subst hc
      revert h3
      simp only [sampleStar, cexCloud]
      rw [hproj, hdir, hclosest, hd5]
      norm_num)]
    simp

/-- C4 amended: given a candidate pair otherwise satisfying the handshake
criteria (not already connected, within `maxConnectionDistance`), no
connection is created exactly when either star's position lies strictly
inside some occluder, or the clamped closest point of the segment to some
occluder center is strictly within that occluder's radius (the source
compares strictly, and its skip of out-of-segment projections is equivalent
to clamping because a clamped endpoint strictly inside a cloud is caught by
the endpoint-inside-cloud check). -/
theorem occluder_gating_characterization (st : Settings) (clouds : List DustCloud)
    (conns : List Connection) (A B : Star)
    (hnc : ¬ connExists conns A.id B.id)
    (hd : ¬ dist3 A.position B.position > st.maxConnectionDistance) :
    createConnection st clouds conns A B = conns ↔
      (isStarInDustCloud clouds A ∨ isStarInDustCloud clouds B ∨
        specSegmentBlocked clouds A.position B.position) := by
  rw [← occluder_skip_iff_clamped]
  rw [createConnection, if_neg hnc, if_neg hd]
  by_cases h1 : isStarInDustCloud clouds A ∨ isStarInDustCloud clouds B
  · rw [if_pos h1]
    simp [h1.elim Or.inl (fun h => Or.inr (Or.inl h))]
  · rw [if_neg h1]
    by_cases h2 : isBlockedByDust clouds A.position B.position
    · rw [if_pos h2]
      simp [h2]
    · rw [if_neg h2]
      constructor
      · intro h
        have := congrArg List.length h
        simp at this
      · rintro (h | h | h)
        · exact absurd (Or.inl h) h1
        · exact absurd (Or.inr h) h1
        · exact absurd h h2

/-- Witness for the amended C4 at a concrete input: with the occluder
centered on the segment, `createConnection` refuses to connect. -/
theorem occluder_gating_characterization_witness :
    (createConnection scenarioSettings [⟨⟨5, 0, 0⟩, 5⟩] []
        (sampleStar 0 ⟨0, 0, 0⟩ true (some 0)) (sampleStar 1 ⟨10, 0, 0⟩ true (some 0)) = [] ↔
      (isStarInDustCloud [⟨⟨5, 0, 0⟩, 5⟩] (sampleStar 0 ⟨0, 0, 0⟩ true (some 0)) ∨
        isStarInDustCloud [⟨⟨5, 0, 0⟩, 5⟩] (sampleStar 1 ⟨10, 0, 0⟩ true (some 0)) ∨
        specSegmentBlocked [⟨⟨5, 0, 0⟩, 5⟩] (sampleStar 0 ⟨0, 0, 0⟩ true (some 0)).position
          (sampleStar 1 ⟨10, 0, 0⟩ true (some 0)).position)) :=
  occluder_gating_characterization scenarioSettings [⟨⟨5, 0, 0⟩, 5⟩] []
    (sampleStar 0 ⟨0, 0, 0⟩ true (some 0)) (sampleStar 1 ⟨10, 0, 0⟩ true (some 0))
    (by simp [connExists])
    (by
      rw [not_lt]
      have : dist3 (sampleStar 0 ⟨0, 0, 0⟩ true (some 0)).position
          (sampleStar 1 ⟨10, 0, 0⟩ true (some 0)).position = 10 := by
        simp only [sampleStar, dist3, Vec3.distSq]
        exact sqrt_eval _ 10 (by norm_num) (by norm_num)
      rw [this]
      norm_num [scenarioSettings])

/-! ## Connection and handshake lemmas -/

theorem dist3_comm (a b : Vec3 ℝ) : dist3 a b = dist3 b a := by
  unfold dist3 Vec3.distSq
  ring_nf

theorem connExists_comm (conns : List Connection) (i j : ℕ) :
    connExists conns i j ↔ connExists conns j i := by
  unfold connExists
  constructor <;> rintro ⟨c, hc, h | h⟩ <;> exact ⟨c, hc, by tauto⟩

theorem segLen_comm (pA pB : Vec3 ℝ) : segLen pB pA = segLen pA pB := by
  unfold segLen vlen Vec3.sub
  congr 1
  ring

theorem segLen_sq (pA pB : Vec3 ℝ) :
    segLen pA pB ^ 2 = (pB.x - pA.x) ^ 2 + (pB.y - pA.y) ^ 2 + (pB.z - pA.z) ^ 2 := by
  unfold segLen vlen Vec3.sub
  exact Real.sq_sqrt (by positivity)

theorem eq_of_segLen_zero (pA pB : Vec3 ℝ) (h : segLen pA pB = 0) : pB = pA := by
  have hsq := segLen_sq pA pB
  rw [h] at hsq
  rcases pA with ⟨a1, a2, a3⟩
  rcases pB with ⟨b1, b2, b3⟩
  simp only [Vec3.mk.injEq]
  simp only at hsq
  refine ⟨?_, ?_, ?_⟩ <;>
    nlinarith [sq_nonneg (b1 - a1), sq_nonneg (b2 - a2), sq_nonneg (b3 - a3)]

theorem seg_reverse_proj (pA pB q : Vec3 ℝ) (h : segLen pA pB ≠ 0) :
    segProj pB pA q = segLen pA pB - segProj pA pB q := by
  have hsq := segLen_sq pA pB
  have key : (q.x - pB.x) * (pA.x - pB.x) + (q.y - pB.y) * (pA.y - pB.y) +
      (q.z - pB.z) * (pA.z - pB.z) =
      segLen pA pB ^ 2 - ((q.x - pA.x) * (pB.x - pA.x) + (q.y - pA.y) * (pB.y - pA.y) +
        (q.z - pA.z) * (pB.z - pA.z)) := by
    linear_combination -hsq
  unfold segProj segDir Vec3.sub Vec3.dot Vec3.divScalar
  simp only [segLen_comm]
  simp only [← mul_div_assoc, div_add_div_same]
  rw [key, sub_div, pow_two, mul_div_assoc, div_self h, mul_one]

theorem seg_reverse_closest (pA pB q : Vec3 ℝ) (h : segLen pA pB ≠ 0) :
    Vec3.addScaled pB (segDir pB pA) (segProj pB pA q) =
      Vec3.addScaled pA (segDir pA pB) (segProj pA pB q) := by
  rw [seg_reverse_proj pA pB q h]
  unfold Vec3.addScaled segDir Vec3.sub Vec3.divScalar
  simp only [segLen_comm]
  rw [Vec3.mk.injEq]
  refine ⟨?_, ?_, ?_⟩ <;> field_simp <;> ring

theorem isBlockedByDust_comm (clouds : List DustCloud) (pA pB : Vec3 ℝ) :
    isBlockedByDust clouds pA pB ↔ isBlockedByDust clouds pB pA := by
  by_cases hlen : segLen pA pB = 0
  · rw [eq_of_segLen_zero pA pB hlen]
  · have hlen' : segLen pB pA ≠ 0 := by rw [segLen_comm]; exact hlen
    constructor
    · rintro ⟨c, hc, h1, h2, h3⟩
      have hp0 : (0 : ℝ) ≤ segProj pA pB c.position := not_lt.mp h1
      have hpl : segProj pA pB c.position ≤ segLen pA pB := not_lt.mp h2
      refine ⟨c, hc, ?_, ?_, ?_⟩
      · rw [seg_reverse_proj pA pB c.position hlen]
        exact not_lt.mpr (by linarith)
      · rw [seg_reverse_proj pA pB c.position hlen, segLen_comm]
        exact not_lt.mpr (by linarith)
      · rw [seg_reverse_closest pA pB c.position hlen]
        exact h3
    · rintro ⟨c, hc, h1, h2, h3⟩
      have hp0 : (0 : ℝ) ≤ segProj pB pA c.position := not_lt.mp h1
      have hpl : segProj pB pA c.position ≤ segLen pB pA := not_lt.mp h2
      refine ⟨c, hc, ?_, ?_, ?_⟩
      · rw [seg_reverse_proj pB pA c.position hlen']
        exact not_lt.mpr (by linarith)
      · rw [seg_reverse_proj pB pA c.position hlen']
        rw [segLen_comm pA pB]
        exact not_lt.mpr (by linarith)
      · rw [seg_reverse_closest pB pA c.position hlen']
        exact h3

theorem handshakeOK_comm (st : Settings) (clouds : List DustCloud) (t : ℝ) (A B : Star)
    (h : handshakeOK st clouds t A B) : handshakeOK st clouds t B A := by
  obtain ⟨h1, h2, ta, tb, h3, h4, h5, h6, h7, h8, h9, h10⟩ := h
  exact ⟨h2, h1, tb, ta, h4, h3, by rwa [dist3_comm], by rwa [dist3_comm], by rwa [dist3_comm],
    h9, h8, by rwa [← isBlockedByDust_comm]⟩

theorem pairKey_comm (i j : ℕ) : pairKey i j = pairKey j i := by
  unfold pairKey
  rw [min_comm, max_comm]

theorem pairKey_eq_iff (a b c d : ℕ) :
    pairKey a b = pairKey c d ↔ (a = c ∧ b = d) ∨ (a = d ∧ b = c) := by
  unfold pairKey
  rw [Prod.ext_iff]
  simp only []
  omega

theorem eq_of_mem_nodup_id (stars : List Star) (hnd : (stars.map Star.id).Nodup)
    (X Y : Star) (hX : X ∈ stars) (hY : Y ∈ stars) (h : X.id = Y.id) : X = Y :=
  List.inj_on_of_nodup_map hnd hX hY h

theorem createConnection_sub (st : Settings) (clouds : List DustCloud)
    (conns : List Connection) (A B : Star) (c : Connection) (h : c ∈ conns) :
    c ∈ createConnection st clouds conns A B := by
  unfold createConnection
  split_ifs <;> simp [h]

theorem createConnection_mem (st : Settings) (clouds : List DustCloud)
    (conns : List Connection) (A B : Star) (c : Connection)
    (h : c ∈ createConnection st clouds conns A B) :
    c ∈ conns ∨
      (c = ⟨A.id, B.id⟩ ∧ ¬ connExists conns A.id B.id ∧
        dist3 A.position B.position ≤ st.maxConnectionDistance ∧
        ¬ isStarInDustCloud clouds A ∧ ¬ isStarInDustCloud clouds B ∧
        ¬ isBlockedByDust clouds A.position B.position) := by
  unfold createConnection at h
  split_ifs at h with h1 h2 h3 h4
  · exact Or.inl h
  · exact Or.inl h
  · exact Or.inl h
  · exact Or.inl h
  · rcases List.mem_append.mp h with h5 | h5
    · exact Or.inl h5
    · rw [List.mem_singleton] at h5
      exact Or.inr ⟨h5, h1, not_lt.mp h2, fun hh => h3 (Or.inl hh), fun hh => h3 (Or.inr hh), h4⟩

theorem createConnection_connExists (st : Settings) (clouds : List DustCloud)
    (conns : List Connection) (A B : Star)
    (hdist : ¬ dist3 A.position B.position > st.maxConnectionDistance)
    (hA : ¬ isStarInDustCloud clouds A) (hB : ¬ isStarInDustCloud clouds B)
    (hblock : ¬ isBlockedByDust clouds A.position B.position) :
    connExists (createConnection st clouds conns A B) A.id B.id := by
  unfold createConnection
  by_cases h1 : connExists conns A.id B.id
  · rw [if_pos h1]
    exact h1
  · rw [if_neg h1, if_neg hdist, if_neg (by tauto), if_neg hblock]
    exact ⟨⟨A.id, B.id⟩, by simp, Or.inl ⟨rfl, rfl⟩⟩

theorem createConnection_uniquePairs (st : Settings) (clouds : List DustCloud)
    (conns : List Connection) (A B : Star) (h : uniquePairs conns) :
    uniquePairs (createConnection st clouds conns A B) := by
  unfold createConnection
  split_ifs with h1 h2 h3 h4
  · exact h
  · exact h
  · exact h
  · exact h
  · unfold uniquePairs
    rw [List.pairwise_append]
    refine ⟨h, List.pairwise_singleton _ _, ?_⟩
    intro c hc d hd
    rw [List.mem_singleton] at hd
    subst hd
    intro hkey
    apply h1
    rcases (pairKey_eq_iff c.star1 c.star2 A.id B.id).mp hkey with ⟨hh1, hh2⟩ | ⟨hh1, hh2⟩
    · exact ⟨c, hc, Or.inl ⟨hh1, hh2⟩⟩
    · exact ⟨c, hc, Or.inr ⟨hh1, hh2⟩⟩

theorem mem_activeStars (stars : List Star) (s : Star) :
    s ∈ activeStars stars ↔ s ∈ stars ∧ s.isActive = true ∧ s.activationTime.isSome = true := by
  unfold activeStars
  rw [List.mem_filter]
  simp

/-- Membership in the rebuilt star grid's radius query implies membership in
the indexed star list. -/
theorem mem_of_mem_starGrid_query (st : Settings) (active : List Star) (p : Vec3 ℝ)
    (r : ℝ) (s : Star) (h : s ∈ (buildStarGrid st active).queryRadius p r) :
    s ∈ active := by
  unfold buildStarGrid at h
  rw [SpatialGrid.mem_queryRadius_build] at h
  obtain ⟨q, hq, -, -, -⟩ := h
  obtain ⟨s', hs', heq⟩ := List.mem_map.mp hq
  cases heq
  exact hs'

/-- The star-grid radius query at `maxConnectionDistance` finds every
indexed star within that true distance of the query position (the C1
superset property at the star grid's cell size). -/
theorem starGrid_query_superset (st : Settings) (active : List Star) (A B : Star)
    (hcs : 0 < st.maxConnectionDistance) (hB : B ∈ active)
    (hdist : dist3 A.position B.position ≤ st.maxConnectionDistance) :
    B ∈ (buildStarGrid st active).queryRadius A.position st.maxConnectionDistance := by
  have hd' : dist3 B.position A.position ≤ st.maxConnectionDistance := by
    rw [← dist3_comm]
    exact hdist
  have hsq : Vec3.distSq B.position A.position ≤ st.maxConnectionDistance ^ 2 :=
    (Real.sqrt_le_left (le_of_lt hcs)).mp hd'
  obtain ⟨hx, hy, hz⟩ := axis_bounds_of_distSq_le B.position A.position
    st.maxConnectionDistance (le_of_lt hcs) hsq
  unfold buildStarGrid
  rw [SpatialGrid.mem_queryRadius_build]
  refine ⟨B.position, List.mem_map_of_mem _ hB, ?_, ?_, ?_⟩ <;>
    simp only [SpatialGrid.cellKeyV, SpatialGrid.cellKey] <;>
    exact abs_floor_div_sub_le _ _ _ _ hcs (by assumption)

theorem connExists_mono (l1 l2 : List Connection) (i j : ℕ)
    (hsub : ∀ c ∈ l1, c ∈ l2) (h : connExists l1 i j) : connExists l2 i j := by
  obtain ⟨c, hc, hm⟩ := h
  exact ⟨c, hsub c hc, hm⟩

theorem handshakeStep_mono (st : Settings) (clouds : List DustCloud) (t : ℝ) (A : Star)
    (acc : List (ℕ × ℕ) × List Connection) (B : Star) (c : Connection) (h : c ∈ acc.2) :
    c ∈ (handshakeStep st clouds t A acc B).2 := by
  unfold handshakeStep
  split_ifs <;> first | exact h | exact createConnection_sub _ _ _ _ _ _ h

theorem handshakeStep_checked (st : Settings) (clouds : List DustCloud) (t : ℝ)
    (A : Star) (acc : List (ℕ × ℕ) × List Connection) (B : Star) (hne : A.id ≠ B.id) :
    pairKey A.id B.id ∈ (handshakeStep st clouds t A acc B).1 := by
  unfold handshakeStep
  split_ifs with h1 h2 <;> first | exact absurd h1 hne | exact h2 | exact List.mem_cons_self _ _

theorem handshakeStep_mem (st : Settings) (clouds : List DustCloud) (t : ℝ) (A : Star)
    (acc : List (ℕ × ℕ) × List Connection) (B : Star) (c : Connection)
    (h : c ∈ (handshakeStep st clouds t A acc B).2) :
    c ∈ acc.2 ∨ (c = ⟨A.id, B.id⟩ ∧ A.id ≠ B.id ∧ handshakeTimingOK st clouds t A B) := by
  unfold handshakeStep at h
  split_ifs at h with h1 h2 h3 h4 h5
  · exact Or.inl h
  · exact Or.inl h
  · exact Or.inl h
  · exact Or.inl h
  · rcases createConnection_mem st clouds acc.2 A B c h with h6 | ⟨rfl, h7, h8, h9, h10, h11⟩
    · exact Or.inl h6
    · rw [not_or] at h4
      obtain ⟨ta, hta⟩ := Option.ne_none_iff_exists'.mp h4.1
      obtain ⟨tb, htb⟩ := Option.ne_none_iff_exists'.mp h4.2
      rw [hta, htb] at h5
      simp only [Option.getD_some] at h5
      exact Or.inr ⟨rfl, h1, ta, tb, hta, htb, h8, h5.1, h5.2, h9, h10, h11⟩
  · exact Or.inl h

theorem pair_ident (stars : List Star) (hnd : (stars.map Star.id).Nodup)
    (A0 B0 X Y : Star) (hA0 : A0 ∈ stars) (hB0 : B0 ∈ stars)
    (hX : X ∈ stars) (hY : Y ∈ stars)
    (hkey : pairKey X.id Y.id = pairKey A0.id B0.id) :
    (X = A0 ∧ Y = B0) ∨ (X = B0 ∧ Y = A0) := by
  rcases (pairKey_eq_iff X.id Y.id A0.id B0.id).mp hkey with ⟨h1, h2⟩ | ⟨h1, h2⟩
  · exact Or.inl ⟨eq_of_mem_nodup_id stars hnd X A0 hX hA0 h1,
      eq_of_mem_nodup_id stars hnd Y B0 hY hB0 h2⟩
  · exact Or.inr ⟨eq_of_mem_nodup_id stars hnd X B0 hX hB0 h1,
      eq_of_mem_nodup_id stars hnd Y A0 hY hA0 h2⟩

theorem handshakeStep_checked_sub (st : Settings) (clouds : List DustCloud) (t : ℝ)
    (X : Star) (acc : List (ℕ × ℕ) × List Connection) (Y : Star) (k : ℕ × ℕ)
    (hk : k ∈ (handshakeStep st clouds t X acc Y).1) :
    k ∈ acc.1 ∨ k = pairKey X.id Y.id := by
  unfold handshakeStep at hk
  split_ifs at hk
  · exact Or.inl hk
  · exact Or.inl hk
  all_goals
    rcases List.mem_cons.mp hk with h | h
    · exact Or.inr h
    · exact Or.inl h

theorem handshakeStep_self_creates (st : Settings) (clouds : List DustCloud) (t : ℝ)
    (X Y : Star) (acc : List (ℕ × ℕ) × List Connection)
    (hOKXY : handshakeOK st clouds t X Y) (hne : X.id ≠ Y.id)
    (hacc : pairKey X.id Y.id ∈ acc.1 → connExists acc.2 X.id Y.id) :
    connExists (handshakeStep st clouds t X acc Y).2 X.id Y.id := by
  obtain ⟨-, -, ta, tb, hta, htb, hd, h1, h2, h3, h4, h5⟩ := hOKXY
  unfold handshakeStep
  split_ifs with g1 g2 g3 g4 g5
  · exact absurd g1 hne
  · exact hacc g2
  · exact absurd g3 (not_lt.mpr hd)
  · rw [hta, htb] at g4
    rcases g4 with g4 | g4 <;> cases g4
  · exact createConnection_connExists st clouds acc.2 X Y (not_lt.mpr hd) h3 h4 h5
  · rw [hta, htb] at g5
    simp only [Option.getD_some] at g5
    exact absurd ⟨h1, h2⟩ g5

theorem handshakeStep_inv (st : Settings) (clouds : List DustCloud) (t : ℝ)
    (stars : List Star) (hnd : (stars.map Star.id).Nodup)
    (A0 B0 : Star) (hA0 : A0 ∈ stars) (hB0 : B0 ∈ stars) (hne : A0.id ≠ B0.id)
    (hOK : handshakeOK st clouds t A0 B0)
    (X Y : Star) (hX : X ∈ stars) (hY : Y ∈ stars)
    (acc : List (ℕ × ℕ) × List Connection)
    (hI : pairKey A0.id B0.id ∈ acc.1 → connExists acc.2 A0.id B0.id)
    (hk : pairKey A0.id B0.id ∈ (handshakeStep st clouds t X acc Y).1) :
    connExists (handshakeStep st clouds t X acc Y).2 A0.id B0.id := by
  rcases handshakeStep_checked_sub st clouds t X acc Y _ hk with hin | hkey
  · exact connExists_mono acc.2 _ _ _
      (fun c hc => handshakeStep_mono st clouds t X acc Y c hc) (hI hin)
  · rcases pair_ident stars hnd A0 B0 X Y hA0 hB0 hX hY hkey.symm with ⟨rfl, rfl⟩ | ⟨rfl, rfl⟩
    · exact handshakeStep_self_creates st clouds t X Y acc hOK hne hI
    · have h := handshakeStep_self_creates st clouds t X Y acc
        (handshakeOK_comm st clouds t Y X hOK) (Ne.symm hne)
        (fun hin => (connExists_comm _ _ _).mp (hI (by rwa [pairKey_comm] at hin)))
      exact (connExists_comm _ _ _).mp h

theorem handshakeFold_mono (st : Settings) (clouds : List DustCloud) (t : ℝ) (A : Star)
    (l : List Star) (acc : List (ℕ × ℕ) × List Connection) (c : Connection)
    (h : c ∈ acc.2) : c ∈ (l.foldl (handshakeStep st clouds t A) acc).2 := by
  induction l generalizing acc with
  | nil => exact h
  | cons B l ih => exact ih _ (handshakeStep_mono st clouds t A acc B c h)

theorem handshakeFold_mem (st : Settings) (clouds : List DustCloud) (t : ℝ) (A : Star)
    (l : List Star) (acc : List (ℕ × ℕ) × List Connection) (c : Connection)
    (h : c ∈ (l.foldl (handshakeStep st clouds t A) acc).2) :
    c ∈ acc.2 ∨ ∃ B ∈ l, c = ⟨A.id, B.id⟩ ∧ A.id ≠ B.id ∧
      handshakeTimingOK st clouds t A B := by
  induction l generalizing acc with
  | nil => exact Or.inl h
  | cons B l ih =>
      rcases ih _ h with h1 | ⟨B', hB', h2⟩
      · rcases handshakeStep_mem st clouds t A acc B c h1 with h3 | h3
        · exact Or.inl h3
        · exact Or.inr ⟨B, List.mem_cons_self _ _, h3⟩
      · exact Or.inr ⟨B', List.mem_cons_of_mem _ hB', h2⟩

theorem handshakeFold_inv (st : Settings) (clouds : List DustCloud) (t : ℝ)
    (stars : List Star) (hnd : (stars.map Star.id).Nodup)
    (A0 B0 : Star) (hA0 : A0 ∈ stars) (hB0 : B0 ∈ stars) (hne : A0.id ≠ B0.id)
    (hOK : handshakeOK st clouds t A0 B0)
    (X : Star) (hX : X ∈ stars) (l : List Star) (hl : ∀ Y ∈ l, Y ∈ stars)
    (acc : List (ℕ × ℕ) × List Connection)
    (hI : pairKey A0.id B0.id ∈ acc.1 → connExists acc.2 A0.id B0.id)
    (hk : pairKey A0.id B0.id ∈ (l.foldl (handshakeStep st clouds t X) acc).1) :
    connExists (l.foldl (handshakeStep st clouds t X) acc).2 A0.id B0.id := by
  induction l generalizing acc with
  | nil => exact hI hk
  | cons Y l ih =>
      exact ih (fun Z hZ => hl Z (List.mem_cons_of_mem _ hZ)) _
        (fun hkk => handshakeStep_inv st clouds t stars hnd A0 B0 hA0 hB0 hne hOK X Y hX
          (hl Y (List.mem_cons_self _ _)) acc hI hkk) hk

theorem handshakeFold_creates (st : Settings) (clouds : List DustCloud) (t : ℝ)
    (stars : List Star) (hnd : (stars.map Star.id).Nodup)
    (A0 B0 : Star) (hA0 : A0 ∈ stars) (hB0 : B0 ∈ stars) (hne : A0.id ≠ B0.id)
    (hOK : handshakeOK st clouds t A0 B0)
    (l : List Star) (hl : ∀ Y ∈ l, Y ∈ stars) (hBl : B0 ∈ l)
    (acc : List (ℕ × ℕ) × List Connection)
    (hI : pairKey A0.id B0.id ∈ acc.1 → connExists acc.2 A0.id B0.id) :
    connExists (l.foldl (handshakeStep st clouds t A0) acc).2 A0.id B0.id := by
  induction l generalizing acc with
  | nil => cases hBl
  | cons Y l ih =>
      have hY : Y ∈ stars := hl Y (List.mem_cons_self _ _)
      have hl' : ∀ Z ∈ l, Z ∈ stars := fun Z hZ => hl Z (List.mem_cons_of_mem _ hZ)
      have hInext : pairKey A0.id B0.id ∈ (handshakeStep st clouds t A0 acc Y).1 →
          connExists (handshakeStep st clouds t A0 acc Y).2 A0.id B0.id :=
        fun hkk => handshakeStep_inv st clouds t stars hnd A0 B0 hA0 hB0 hne hOK A0 Y hA0
          hY acc hI hkk
      rcases List.mem_cons.mp hBl with rfl | hBl'
      · -- this inner iteration reaches B0: it is processed now (or was before)
        have hck : pairKey A0.id B0.id ∈ (handshakeStep st clouds t A0 acc B0).1 :=
          handshakeStep_checked st clouds t A0 acc B0 hne
        have h1 : connExists (handshakeStep st clouds t A0 acc B0).2 A0.id B0.id :=
          hInext hck
        exact connExists_mono _ _ _ _
          (fun c hc => handshakeFold_mono st clouds t A0 l _ c hc) h1
      · exact ih hl' hBl' _ hInext

theorem handshakeOuter_mono (st : Settings) (clouds : List DustCloud) (t : ℝ)
    (grid : SpatialGrid ℝ Star) (active : List Star)
    (acc : List (ℕ × ℕ) × List Connection) (c : Connection) (h : c ∈ acc.2) :
    c ∈ (handshakeOuter st clouds t grid acc active).2 := by
  induction active generalizing acc with
  | nil => exact h
  | cons X active ih =>
      exact ih _ (handshakeFold_mono st clouds t X _ acc c h)

theorem handshakeOuter_mem (st : Settings) (clouds : List DustCloud) (t : ℝ)
    (grid : SpatialGrid ℝ Star) (S : List Star)
    (hq : ∀ A : Star, ∀ B ∈ grid.queryRadius A.position st.maxConnectionDistance, B ∈ S)
    (active : List Star) (acc : List (ℕ × ℕ) × List Connection) (c : Connection)
    (h : c ∈ (handshakeOuter st clouds t grid acc active).2) :
    c ∈ acc.2 ∨ ∃ A ∈ active, ∃ B ∈ S, c = ⟨A.id, B.id⟩ ∧ A.id ≠ B.id ∧
      handshakeTimingOK st clouds t A B := by
  induction active generalizing acc with
  | nil => exact Or.inl h
  | cons X active ih =>
      rcases ih _ h with h1 | ⟨A, hA, B, hB, h2⟩
      · rcases handshakeFold_mem st clouds t X _ acc c h1 with h3 | ⟨B, hB, h4⟩
        · exact Or.inl h3
        · exact Or.inr ⟨X, List.mem_cons_self _ _, B, hq X B hB, h4⟩
      · exact Or.inr ⟨A, List.mem_cons_of_mem _ hA, B, hB, h2⟩

theorem handshakeOuter_inv (st : Settings) (clouds : List DustCloud) (t : ℝ)
    (stars : List Star) (hnd : (stars.map Star.id).Nodup)
    (A0 B0 : Star) (hA0 : A0 ∈ stars) (hB0 : B0 ∈ stars) (hne : A0.id ≠ B0.id)
    (hOK : handshakeOK st clouds t A0 B0)
    (grid : SpatialGrid ℝ Star)
    (hq : ∀ A : Star, ∀ B ∈ grid.queryRadius A.position st.maxConnectionDistance, B ∈ stars)
    (active : List Star) (hactive : ∀ X ∈ active, X ∈ stars)
    (acc : List (ℕ × ℕ) × List Connection)
    (hI : pairKey A0.id B0.id ∈ acc.1 → connExists acc.2 A0.id B0.id)
    (hk : pairKey A0.id B0.id ∈ (handshakeOuter st clouds t grid acc active).1) :
    connExists (handshakeOuter st clouds t grid acc active).2 A0.id B0.id := by
  induction active generalizing acc with
  | nil => exact hI hk
  | cons X active ih =>
      exact ih (fun Z hZ => hactive Z (List.mem_cons_of_mem _ hZ)) _
        (fun hkk => handshakeFold_inv st clouds t stars hnd A0 B0 hA0 hB0 hne hOK X
          (hactive X (List.mem_cons_self _ _)) _ (fun Y hY => hq X Y hY) acc hI hkk) hk

theorem handshakeOuter_creates (st : Settings) (clouds : List DustCloud) (t : ℝ)
    (stars : List Star) (hnd : (stars.map Star.id).Nodup)
    (A0 B0 : Star) (hA0 : A0 ∈ stars) (hB0 : B0 ∈ stars) (hne : A0.id ≠ B0.id)
    (hOK : handshakeOK st clouds t A0 B0)
    (grid : SpatialGrid ℝ Star)
    (hq : ∀ A : Star, ∀ B ∈ grid.queryRadius A.position st.maxConnectionDistance, B ∈ stars)
    (hBq : B0 ∈ grid.queryRadius A0.position st.maxConnectionDistance)
    (active : List Star) (hactive : ∀ X ∈ active, X ∈ stars) (hA0a : A0 ∈ active)
    (acc : List (ℕ × ℕ) × List Connection)
    (hI : pairKey A0.id B0.id ∈ acc.1 → connExists acc.2 A0.id B0.id) :
    connExists (handshakeOuter st clouds t grid acc active).2 A0.id B0.id := by
  induction active generalizing acc with
  | nil => cases hA0a
  | cons X active ih =>
      have hactive' : ∀ Z ∈ active, Z ∈ stars :=
        fun Z hZ => hactive Z (List.mem_cons_of_mem _ hZ)
      have hInext : pairKey A0.id B0.id ∈
            ((grid.queryRadius X.position st.maxConnectionDistance).foldl
              (handshakeStep st clouds t X) acc).1 →
          connExists ((grid.queryRadius X.position st.maxConnectionDistance).foldl
            (handshakeStep st clouds t X) acc).2 A0.id B0.id :=
        fun hkk => handshakeFold_inv st clouds t stars hnd A0 B0 hA0 hB0 hne hOK X
          (hactive X (List.mem_cons_self _ _)) _ (fun Y hY => hq X Y hY) acc hI hkk
      rcases List.mem_cons.mp hA0a with rfl | hA0a'
      · have h1 : connExists ((grid.queryRadius A0.position st.maxConnectionDistance).foldl
            (handshakeStep st clouds t A0) acc).2 A0.id B0.id :=
          handshakeFold_creates st clouds t stars hnd A0 B0 hA0 hB0 hne hOK _
            (fun Y hY => hq A0 Y hY) hBq acc hI
        exact connExists_mono _ _ _ _
          (fun c hc => handshakeOuter_mono st clouds t grid active _ c hc) h1
      · exact ih hactive' hA0a' _ hInext

theorem handshakeStep_uniquePairs (st : Settings) (clouds : List DustCloud) (t : ℝ)
    (A : Star) (acc : List (ℕ × ℕ) × List Connection) (B : Star)
    (h : uniquePairs acc.2) : uniquePairs (handshakeStep st clouds t A acc B).2 := by
  unfold handshakeStep
  split_ifs <;> first | exact h | exact createConnection_uniquePairs _ _ _ _ _ h

theorem handshakeFold_uniquePairs (st : Settings) (clouds : List DustCloud) (t : ℝ)
    (A : Star) (l : List Star) (acc : List (ℕ × ℕ) × List Connection)
    (h : uniquePairs acc.2) :
    uniquePairs (l.foldl (handshakeStep st clouds t A) acc).2 := by
  induction l generalizing acc with
  | nil => exact h
  | cons B l ih => exact ih _ (handshakeStep_uniquePairs st clouds t A acc B h)

theorem handshakeOuter_uniquePairs (st : Settings) (clouds : List DustCloud) (t : ℝ)
    (grid : SpatialGrid ℝ Star) (active : List Star)
    (acc : List (ℕ × ℕ) × List Connection) (h : uniquePairs acc.2) :
    uniquePairs (handshakeOuter st clouds t grid acc active).2 := by
  induction active generalizing acc with
  | nil => exact h
  | cons X active ih => exact ih _ (handshakeFold_uniquePairs st clouds t X _ acc h)

theorem handshakePhase_uniquePairs (st : Settings) (clouds : List DustCloud)
    (stars : List Star) (conns : List Connection) (t : ℝ) (h : uniquePairs conns) :
    uniquePairs (handshakePhase st clouds stars conns t) := by
  unfold handshakePhase
  exact handshakeOuter_uniquePairs st clouds t _ _ _ h

theorem handshakePhase_mono (st : Settings) (clouds : List DustCloud) (stars : List Star)
    (conns : List Connection) (t : ℝ) (c : Connection) (h : c ∈ conns) :
    c ∈ handshakePhase st clouds stars conns t := by
  unfold handshakePhase
  exact handshakeOuter_mono st clouds t _ _ _ c h

theorem handshakePhase_mem (st : Settings) (clouds : List DustCloud) (stars : List Star)
    (conns : List Connection) (t : ℝ) (c : Connection)
    (h : c ∈ handshakePhase st clouds stars conns t) :
    c ∈ conns ∨ ∃ A B : Star, A ∈ stars ∧ B ∈ stars ∧ c = ⟨A.id, B.id⟩ ∧ A.id ≠ B.id ∧
      handshakeOK st clouds t A B := by
  unfold handshakePhase at h
  rcases handshakeOuter_mem st clouds t _ (activeStars stars)
      (fun A B hB => mem_of_mem_starGrid_query st _ _ _ B hB) _ _ c h with
    h1 | ⟨A, hA, B, hB, h2, h3, h4⟩
  · exact Or.inl h1
  · obtain ⟨hAs, hAa, -⟩ := (mem_activeStars stars A).mp hA
    obtain ⟨hBs, hBa, -⟩ := (mem_activeStars stars B).mp hB
    exact Or.inr ⟨A, B, hAs, hBs, h2, h3, hAa, hBa, h4⟩

theorem handshakePhase_creates (st : Settings) (clouds : List DustCloud) (stars : List Star)
    (conns : List Connection) (t : ℝ) (A0 B0 : Star)
    (hcs : 0 < st.maxConnectionDistance) (hnd : (stars.map Star.id).Nodup)
    (hA0 : A0 ∈ stars) (hB0 : B0 ∈ stars) (hne : A0.id ≠ B0.id)
    (hOK : handshakeOK st clouds t A0 B0) :
    connExists (handshakePhase st clouds stars conns t) A0.id B0.id := by
  obtain ⟨hAa, hBa, ta, tb, hta, htb, hd, -⟩ := id hOK
  have hA0a : A0 ∈ activeStars stars :=
    (mem_activeStars stars A0).mpr ⟨hA0, hAa, by rw [hta]; rfl⟩
  have hB0a : B0 ∈ activeStars stars :=
    (mem_activeStars stars B0).mpr ⟨hB0, hBa, by rw [htb]; rfl⟩
  unfold handshakePhase
  exact handshakeOuter_creates st clouds t stars hnd A0 B0 hA0 hB0 hne hOK _
    (fun A B hB => ((mem_activeStars stars B).mp
      (mem_of_mem_starGrid_query st _ _ _ B hB)).1)
    (starGrid_query_superset st _ A0 B0 hcs hB0a hd)
    (activeStars stars) (fun X hX => ((mem_activeStars stars X).mp hX).1) hA0a
    ([], conns) (fun h => absurd h (List.not_mem_nil _))

theorem length_eq_one_of_uniquePairs (conns : List Connection) (i j : ℕ)
    (hne : conns ≠ [])
    (hall : ∀ c ∈ conns, pairKey c.star1 c.star2 = pairKey i j)
    (hu : uniquePairs conns) : conns.length = 1 := by
  cases conns with
  | nil => exact absurd rfl hne
  | cons c rest =>
      cases rest with
      | nil => rfl
      | cons d rest2 =>
          exfalso
          have h1 := hall c (List.mem_cons_self _ _)
          have h2 := hall d (List.mem_cons_of_mem _ (List.mem_cons_self _ _))
          exact (List.pairwise_cons.mp hu).1 d (List.mem_cons_self _ _) (h1.trans h2.symm)

/-! ## C2: handshake connection formation -/

/-- C2: the per-tick handshake phase creates a connection between two
distinct stars exactly when both are currently active, within
`maxConnectionDistance`, both continuously active for at least the
round-trip propagation time `2 * distance / waveSpeed` (with the wave speed
as propagation speed) and not occluded; and in the spec's scenario — A at
the origin, B at (10,0,0), propagation speed 5, `maxConnectionDistance` 20,
both activated at t = 0, no occluders — the handshake at t = 3.9 creates no
connection while the handshake at t = 4.1 leaves exactly one. -/
theorem handshake_connection_iff :
    (∀ (st : Settings) (clouds : List DustCloud) (stars : List Star)
        (conns : List Connection) (t : ℝ) (A B : Star),
      0 < st.maxConnectionDistance → (stars.map Star.id).Nodup →
      A ∈ stars → B ∈ stars → A.id ≠ B.id → ¬ connExists conns A.id B.id →
      (connExists (handshakePhase st clouds stars conns t) A.id B.id ↔
        handshakeOK st clouds t A B)) ∧
    handshakePhase scenarioSettings [] [scenarioStarA, scenarioStarB] [] 3.9 = [] ∧
    (handshakePhase scenarioSettings [] [scenarioStarA, scenarioStarB]
      (handshakePhase scenarioSettings [] [scenarioStarA, scenarioStarB] [] 3.9)
      4.1).length = 1 := by
  have hIff : ∀ (st : Settings) (clouds : List DustCloud) (stars : List Star)
      (conns : List Connection) (t : ℝ) (A B : Star),
      0 < st.maxConnectionDistance → (stars.map Star.id).Nodup →
      A ∈ stars → B ∈ stars → A.id ≠ B.id → ¬ connExists conns A.id B.id →
      (connExists (handshakePhase st clouds stars conns t) A.id B.id ↔
        handshakeOK st clouds t A B) := by
    intro st clouds stars conns t A B hcs hnd hA hB hne hnc
    constructor
    · rintro ⟨c, hc, hm⟩
      rcases handshakePhase_mem st clouds stars conns t c hc with
        h1 | ⟨A', B', hA', hB', rfl, hne', hOK'⟩
      · exact absurd ⟨c, h1, hm⟩ hnc
      · rcases hm with ⟨h1, h2⟩ | ⟨h1, h2⟩
        · obtain rfl := eq_of_mem_nodup_id stars hnd A' A hA' hA h1
          obtain rfl := eq_of_mem_nodup_id stars hnd B' B hB' hB h2
          exact hOK'
        · obtain rfl := eq_of_mem_nodup_id stars hnd A' B hA' hB h1
          obtain rfl := eq_of_mem_nodup_id stars hnd B' A hB' hA h2
          exact handshakeOK_comm st clouds t _ _ hOK'
    · intro hOK
      exact handshakePhase_creates st clouds stars conns t A B hcs hnd hA hB hne hOK
  have hd10 : dist3 scenarioStarA.position scenarioStarB.position = 10 := by
    simp only [scenarioStarA, scenarioStarB, sampleStar, dist3, Vec3.distSq]
    exact sqrt_eval _ 10 (by norm_num) (by norm_num)
  have hnd2 : (([scenarioStarA, scenarioStarB]).map Star.id).Nodup := by
    simp [scenarioStarA, scenarioStarB, sampleStar]
  have h39 : handshakePhase scenarioSettings [] [scenarioStarA, scenarioStarB] [] 3.9 = [] := by
    rw [List.eq_nil_iff_forall_not_mem]
    intro c hc
    rcases handshakePhase_mem _ _ _ _ _ c hc with h1 | ⟨A, B, hA, hB, -, hne, -, -, hT⟩
    · exact List.not_mem_nil c h1
    · obtain ⟨ta, tb, hta, htb, -, h1, h2, -⟩ := hT
      rcases List.mem_cons.mp hA with rfl | hA2
      · rcases List.mem_cons.mp hB with rfl | hB2
        · exact hne rfl
        · rw [List.mem_singleton] at hB2
          subst hB2
          simp only [scenarioStarA, scenarioStarB, sampleStar, Option.some.injEq] at hta
          rw [hd10] at h1
          rw [← hta] at h1
          norm_num [scenarioSettings] at h1
      · rw [List.mem_singleton] at hA2
        subst hA2
        rcases List.mem_cons.mp hB with rfl | hB2
        · rw [dist3_comm, hd10] at h1
          simp only [scenarioStarA, scenarioStarB, sampleStar, Option.some.injEq] at hta
          rw [← hta] at h1
          norm_num [scenarioSettings] at h1
        · rw [List.mem_singleton] at hB2
          subst hB2
          exact hne rfl
  have hOK41 : handshakeOK scenarioSettings [] 4.1 scenarioStarA scenarioStarB := by
    refine ⟨by simp [scenarioStarA, sampleStar], by simp [scenarioStarB, sampleStar],
      0, 0, by simp [scenarioStarA, sampleStar], by simp [scenarioStarB, sampleStar],
      ?_, ?_, ?_, ?_, ?_, ?_⟩
    · rw [hd10]
      norm_num [scenarioSettings]
    · rw [hd10]
      norm_num [scenarioSettings]
    · rw [hd10]
      norm_num [scenarioSettings]
    · simp [isStarInDustCloud]
    · simp [isStarInDustCloud]
    · simp [isBlockedByDust]
  have hne01 : scenarioStarA.id ≠ scenarioStarB.id := by
    simp [scenarioStarA, scenarioStarB, sampleStar]
  have hcre := handshakePhase_creates scenarioSettings []
    [scenarioStarA, scenarioStarB] [] 4.1 scenarioStarA scenarioStarB
    (by norm_num [scenarioSettings]) hnd2 (List.mem_cons_self _ _)
    (List.mem_cons_of_mem _ (List.mem_cons_self _ _)) hne01 hOK41
  refine ⟨hIff, h39, ?_⟩
  rw [h39]
  apply length_eq_one_of_uniquePairs _ scenarioStarA.id scenarioStarB.id
  · obtain ⟨c, hc, -⟩ := hcre
    exact List.ne_nil_of_mem hc
  · intro c hc
    rcases handshakePhase_mem _ _ _ _ _ c hc with h1 | ⟨A, B, hA, hB, rfl, hne, -⟩
    · exact absurd h1 (List.not_mem_nil c)
    · rcases List.mem_cons.mp hA with rfl | hA2
      · rcases List.mem_cons.mp hB with rfl | hB2
        · exact absurd rfl hne
        · rw [List.mem_singleton] at hB2
          subst hB2
          rfl
      · rw [List.mem_singleton] at hA2
        subst hA2
        rcases List.mem_cons.mp hB with rfl | hB2
        · exact pairKey_comm _ _
        · rw [List.mem_singleton] at hB2
          subst hB2
          exact absurd rfl hne
  · exact handshakePhase_uniquePairs _ _ _ _ _ List.Pairwise.nil

/-- Witness for C2 at a concrete input (the general conjunct instantiated
at the scenario). -/
theorem handshake_connection_iff_witness :
    connExists (handshakePhase scenarioSettings [] [scenarioStarA, scenarioStarB] [] 4.1)
        scenarioStarA.id scenarioStarB.id ↔
      handshakeOK scenarioSettings [] 4.1 scenarioStarA scenarioStarB :=
  handshake_connection_iff.1 scenarioSettings [] [scenarioStarA, scenarioStarB] [] 4.1
    scenarioStarA scenarioStarB (by norm_num [scenarioSettings])
    (by simp [scenarioStarA, scenarioStarB, sampleStar])
    (List.mem_cons_self _ _) (List.mem_cons_of_mem _ (List.mem_cons_self _ _))
    (by simp [scenarioStarA, scenarioStarB, sampleStar])
    (by simp [connExists])

/-! ## C3: per-pair uniqueness and idempotent creation -/

/-- C3: at every state reachable by `update` and `createConnection` calls
from a fresh manager, at most one connection exists per unordered star-id
pair; and `createConnection` is idempotent per unordered pair — when a
connection for the pair already exists (in either orientation) it returns
the connection collection unchanged. -/
theorem connection_pair_uniqueness (st : Settings) :
    (∀ m : Manager, Reachable st m → uniquePairs m.conns) ∧
    (∀ (clouds : List DustCloud) (conns : List Connection) (A B : Star),
      connExists conns A.id B.id → createConnection st clouds conns A B = conns) := by
  constructor
  · intro m hm
    induction hm with
    | init stars clouds => exact List.Pairwise.nil
    | step_update m dt now rSup rAct rBirth birthStar hm ih =>
        simp only [Manager.update]
        exact handshakePhase_uniquePairs _ _ _ _ _
          (List.Pairwise.sublist (List.filter_sublist _) ih)
    | step_create m A B hm ih =>
        exact createConnection_uniquePairs st m.clouds m.conns A B ih
  · intro clouds conns A B h
    unfold createConnection
    rw [if_pos h]

/-- Witness for C3: the initial state, and a concrete idempotent
`createConnection` call on an already-connected pair. -/
theorem connection_pair_uniqueness_witness :
    uniquePairs (Manager.mk [] [] []).conns ∧
    createConnection scenarioSettings [] [⟨0, 1⟩] scenarioStarA scenarioStarB = [⟨0, 1⟩] :=
  ⟨(connection_pair_uniqueness scenarioSettings).1 ⟨[], [], []⟩ (Reachable.init [] []),
   (connection_pair_uniqueness scenarioSettings).2 [] [⟨0, 1⟩] scenarioStarA scenarioStarB
     ⟨⟨0, 1⟩, List.mem_cons_self _ _,
       Or.inl ⟨by simp [scenarioStarA, sampleStar], by simp [scenarioStarB, sampleStar]⟩⟩⟩

/-! ## C5: star birth and the population cap -/

theorem starUpdatePhase_length (st : Settings) (dt now : ℝ) (rSup rAct : ℕ → ℝ)
    (stars : List Star) : (starUpdatePhase st dt now rSup rAct stars).length = stars.length := by
  simp [starUpdatePhase]

theorem obscurationPhase_length (st : Settings) (clouds : List DustCloud)
    (stars : List Star) : (obscurationPhase st clouds stars).length = stars.length := by
  simp [obscurationPhase]

/-- C5 (gating part): a birth happens only while the live population is
strictly below both `maxStars` and `starBirthPopulationThreshold`, so an
update never raises the population above the cap, for any `deltaTime` and
any draws. -/
theorem update_population_cap (st : Settings) (m : Manager) (dt now : ℝ)
    (rSup rAct : ℕ → ℝ) (rBirth : ℝ) (birthStar : Star)
    (h : m.stars.length ≤ st.maxStars) :
    (Manager.update st m dt now rSup rAct rBirth birthStar).stars.length ≤ st.maxStars := by
  simp only [Manager.update]
  rw [obscurationPhase_length]
  have h2 : (pruneDeadPhase (starUpdatePhase st dt now rSup rAct m.stars)).length ≤
      st.maxStars := by
    calc (pruneDeadPhase (starUpdatePhase st dt now rSup rAct m.stars)).length
        ≤ (starUpdatePhase st dt now rSup rAct m.stars).length :=
          List.length_filter_le _ _
      _ = m.stars.length := starUpdatePhase_length st dt now rSup rAct m.stars
      _ ≤ st.maxStars := h
  unfold birthPhase
  split_ifs with hb
  · rw [List.length_append]
    have := hb.1
    simp only [List.length_singleton]
    omega
  · exact h2

/-- Witness for the C5 cap theorem at a concrete input. -/
theorem update_population_cap_witness :
    (Manager.update scenarioSettings ⟨[], [], []⟩ 1 0 (fun _ => 1) (fun _ => 1) 0
      agedStar).stars.length ≤ scenarioSettings.maxStars :=
  update_population_cap scenarioSettings ⟨[], [], []⟩ 1 0 (fun _ => 1) (fun _ => 1) 0
    agedStar (by norm_num [scenarioSettings])

/-! ## C6: dust obscuration -/

theorem applyDustObscuration_eq (s : Star) (obs : Bool) :
    s.applyDustObscuration obs false = { s with isObscured := obs } := by
  unfold Star.applyDustObscuration
  simp only [Bool.or_false]
  split_ifs with h
  · cases s
    simp_all
  · rfl

/-- C6 counterexample: star at the origin, occluder of radius 1 centered at
(0, 3, 0).  Its planar (x,z) distance from the star is 0 ≤ 1, so the claim
marks the star obscured; but in the dust grid (cell size 1) the occluder is
three cells away vertically and the radius query scans only one cell in
every axis, so the code never considers it and the star stays
unobscured. -/
theorem obscuration_missed_occluder :
    planarDist (sampleStar 2 ⟨0, 0, 0⟩ false none).position
        ((⟨⟨0, 3, 0⟩, 1⟩ : DustCloud)).position ≤ ((⟨⟨0, 3, 0⟩, 1⟩ : DustCloud)).radius ∧
    (obscurationPhase scenarioSettings [⟨⟨0, 3, 0⟩, 1⟩]
      [sampleStar 2 ⟨0, 0, 0⟩ false none]).map Star.isObscured = [false] := by
  constructor
  · simp only [sampleStar, planarDist, Vec3.planarDistSq]
    rw [show ((0 : ℝ) - 0) ^ 2 + ((0 : ℝ) - 0) ^ 2 = 0 by norm_num, Real.sqrt_zero]
    norm_num
  · have hnear : (dustGridOf scenarioSettings [⟨⟨0, 3, 0⟩, 1⟩]).queryRadius
        (sampleStar 2 ⟨0, 0, 0⟩ false none).position
        (scenarioSettings.dustCloudMinRadius + scenarioSettings.dustCloudRadiusRange) = [] := by
      rw [List.eq_nil_iff_forall_not_mem]
      intro c hc
      unfold dustGridOf at hc
      rw [SpatialGrid.mem_queryRadius_build] at hc
      obtain ⟨q, hq, -, hy, -⟩ := hc
      simp only [List.map_cons, List.map_nil, List.mem_singleton, Prod.mk.injEq] at hq
      obtain ⟨rfl, rfl⟩ := hq
      revert hy
      simp only [sampleStar, SpatialGrid.cellKeyV, SpatialGrid.cellKey, scenarioSettings]
      norm_num
    simp only [obscurationPhase, List.map_cons, List.map_nil]
    rw [hnear]
    simp [applyDustObscuration_eq, sampleStar]

/-- C6 amended: after the obstruction phase each entity's `isObscured` flag
is set exactly when some occluder both lies within one grid cell of the
entity on every axis (in the dust grid, whose cell size is the maximal
occluder radius) and has planar (x,z) distance within its radius; when no
such occluder exists the flag is cleared. -/
theorem obscuration_characterization (st : Settings) (clouds : List DustCloud)
    (stars : List Star) (hcs : 0 < st.dustCloudMinRadius + st.dustCloudRadiusRange) :
    obscurationPhase st clouds stars = stars.map (fun s =>
      { s with isObscured := decide (∃ c ∈ clouds,
          (|⌊c.position.x / (st.dustCloudMinRadius + st.dustCloudRadiusRange)⌋ -
              ⌊s.position.x / (st.dustCloudMinRadius + st.dustCloudRadiusRange)⌋| ≤ 1 ∧
           |⌊c.position.y / (st.dustCloudMinRadius + st.dustCloudRadiusRange)⌋ -
              ⌊s.position.y / (st.dustCloudMinRadius + st.dustCloudRadiusRange)⌋| ≤ 1 ∧
           |⌊c.position.z / (st.dustCloudMinRadius + st.dustCloudRadiusRange)⌋ -
              ⌊s.position.z / (st.dustCloudMinRadius + st.dustCloudRadiusRange)⌋| ≤ 1) ∧
          planarDist s.position c.position ≤ c.radius) }) := by
  have hceil : ⌈(st.dustCloudMinRadius + st.dustCloudRadiusRange) /
      (st.dustCloudMinRadius + st.dustCloudRadiusRange)⌉ = 1 := by
    rw [div_self (ne_of_gt hcs)]
    exact Int.ceil_one
  unfold obscurationPhase
  refine List.map_congr_left ?_
  intro s hs
  rw [applyDustObscuration_eq]
  have hb : ((dustGridOf st clouds).queryRadius s.position
        (st.dustCloudMinRadius + st.dustCloudRadiusRange)).any
          (fun c => decide (planarDist s.position c.position ≤ c.radius)) =
      decide (∃ c ∈ clouds,
        (|⌊c.position.x / (st.dustCloudMinRadius + st.dustCloudRadiusRange)⌋ -
            ⌊s.position.x / (st.dustCloudMinRadius + st.dustCloudRadiusRange)⌋| ≤ 1 ∧
         |⌊c.position.y / (st.dustCloudMinRadius + st.dustCloudRadiusRange)⌋ -
            ⌊s.position.y / (st.dustCloudMinRadius + st.dustCloudRadiusRange)⌋| ≤ 1 ∧
         |⌊c.position.z / (st.dustCloudMinRadius + st.dustCloudRadiusRange)⌋ -
            ⌊s.position.z / (st.dustCloudMinRadius + st.dustCloudRadiusRange)⌋| ≤ 1) ∧
        planarDist s.position c.position ≤ c.radius) := by
    have hiff : (((dustGridOf st clouds).queryRadius s.position
          (st.dustCloudMinRadius + st.dustCloudRadiusRange)).any
            (fun c => decide (planarDist s.position c.position ≤ c.radius)) = true) ↔
        (∃ c ∈ clouds,
          (|⌊c.position.x / (st.dustCloudMinRadius + st.dustCloudRadiusRange)⌋ -
              ⌊s.position.x / (st.dustCloudMinRadius + st.dustCloudRadiusRange)⌋| ≤ 1 ∧
           |⌊c.position.y / (st.dustCloudMinRadius + st.dustCloudRadiusRange)⌋ -
              ⌊s.position.y / (st.dustCloudMinRadius + st.dustCloudRadiusRange)⌋| ≤ 1 ∧
           |⌊c.position.z / (st.dustCloudMinRadius + st.dustCloudRadiusRange)⌋ -
              ⌊s.position.z / (st.dustCloudMinRadius + st.dustCloudRadiusRange)⌋| ≤ 1) ∧
          planarDist s.position c.position ≤ c.radius) := by
      rw [List.any_eq_true]
      constructor
      · rintro ⟨c, hc, hp⟩
        rw [decide_eq_true_eq] at hp
        unfold dustGridOf at hc
        rw [SpatialGrid.mem_queryRadius_build] at hc
        obtain ⟨q, hq, hx, hy, hz⟩ := hc
        obtain ⟨c', hc', heq⟩ := List.mem_map.mp hq
        obtain ⟨rfl, rfl⟩ : c'.position = q ∧ c' = c := ⟨congrArg Prod.fst heq, congrArg Prod.snd heq⟩
        rw [hceil] at hx hy hz
        simp only [SpatialGrid.cellKeyV, SpatialGrid.cellKey] at hx hy hz
        exact ⟨c', hc', ⟨hx, hy, hz⟩, hp⟩
      · rintro ⟨c, hc, ⟨hx, hy, hz⟩, hp⟩
        refine ⟨c, ?_, decide_eq_true hp⟩
        unfold dustGridOf
        rw [SpatialGrid.mem_queryRadius_build]
        refine ⟨c.position, List.mem_map_of_mem _ hc, ?_, ?_, ?_⟩ <;>
          rw [hceil] <;>
          simp only [SpatialGrid.cellKeyV, SpatialGrid.cellKey] <;> assumption
    cases h1 : ((dustGridOf st clouds).queryRadius s.position
        (st.dustCloudMinRadius + st.dustCloudRadiusRange)).any
          (fun c => decide (planarDist s.position c.position ≤ c.radius)) <;>
      cases h2 : decide (∃ c ∈ clouds,
        (|⌊c.position.x / (st.dustCloudMinRadius + st.dustCloudRadiusRange)⌋ -
            ⌊s.position.x / (st.dustCloudMinRadius + st.dustCloudRadiusRange)⌋| ≤ 1 ∧
         |⌊c.position.y / (st.dustCloudMinRadius + st.dustCloudRadiusRange)⌋ -
            ⌊s.position.y / (st.dustCloudMinRadius + st.dustCloudRadiusRange)⌋| ≤ 1 ∧
         |⌊c.position.z / (st.dustCloudMinRadius + st.dustCloudRadiusRange)⌋ -
            ⌊s.position.z / (st.dustCloudMinRadius + st.dustCloudRadiusRange)⌋| ≤ 1) ∧
        planarDist s.position c.position ≤ c.radius) <;>
      simp_all
    obtain ⟨c, hc, ⟨hx, hy, hz⟩, hp⟩ := h2
    exact absurd hp (not_le.mpr (hiff c hc hx hy hz))
  rw [hb]

/-- Witness for the amended C6 at a concrete input. -/
theorem obscuration_characterization_witness :
    obscurationPhase scenarioSettings [] [sampleStar 2 ⟨0, 0, 0⟩ false none] =
      [sampleStar 2 ⟨0, 0, 0⟩ false none].map (fun s =>
        { s with isObscured := decide (∃ c ∈ ([] : List DustCloud),
            (|⌊c.position.x / (scenarioSettings.dustCloudMinRadius +
                scenarioSettings.dustCloudRadiusRange)⌋ -
                ⌊s.position.x / (scenarioSettings.dustCloudMinRadius +
                scenarioSettings.dustCloudRadiusRange)⌋| ≤ 1 ∧
             |⌊c.position.y / (scenarioSettings.dustCloudMinRadius +
                scenarioSettings.dustCloudRadiusRange)⌋ -
                ⌊s.position.y / (scenarioSettings.dustCloudMinRadius +
                scenarioSettings.dustCloudRadiusRange)⌋| ≤ 1 ∧
             |⌊c.position.z / (scenarioSettings.dustCloudMinRadius +
                scenarioSettings.dustCloudRadiusRange)⌋ -
                ⌊s.position.z / (scenarioSettings.dustCloudMinRadius +
                scenarioSettings.dustCloudRadiusRange)⌋| ≤ 1) ∧
            planarDist s.position c.position ≤ c.radius) }) :=
  obscuration_characterization scenarioSettings [] [sampleStar 2 ⟨0, 0, 0⟩ false none]
    (by norm_num [scenarioSettings])

/-! ## C9: ordering of entity and connection removal -/

theorem mem_deadIds (stars : List Star) (i : ℕ) :
    i ∈ deadIds stars ↔ ∃ s ∈ stars, ¬ s.isAlive ∧ s.id = i := by
  unfold deadIds
  simp only [List.mem_map, List.mem_filter, decide_eq_true_eq]
  constructor
  · rintro ⟨s, ⟨hs, hd⟩, rfl⟩
    exact ⟨s, hs, hd, rfl⟩
  · rintro ⟨s, hs, hd, rfl⟩
    exact ⟨s, ⟨hs, hd⟩, rfl⟩

theorem mem_pruneDead (stars : List Star) (s : Star) :
    s ∈ pruneDeadPhase stars ↔ s ∈ stars ∧ s.isAlive := by
  unfold pruneDeadPhase
  simp [List.mem_filter]

theorem mem_birthPhase (st : Settings) (dt rBirth : ℝ) (birthStar : Star)
    (stars : List Star) (s : Star) (h : s ∈ birthPhase st dt rBirth birthStar stars) :
    s ∈ stars ∨ s = birthStar := by
  unfold birthPhase at h
  split_ifs at h
  · rcases List.mem_append.mp h with h | h
    · exact Or.inl h
    · exact Or.inr (List.mem_singleton.mp h)
  · exact Or.inl h

theorem connPrune_not_dead (updatedStars : List Star) (dead : List ℕ)
    (conns : List Connection) (c : Connection) (h : c ∈ connPrunePhase updatedStars dead conns) :
    c.star1 ∉ dead ∧ c.star2 ∉ dead := by
  unfold connPrunePhase at h
  have h2 := (List.mem_filter.mp h).2
  simp only [Bool.and_eq_true, Bool.not_eq_true'] at h2
  have hc1 := h2.1.2
  have hc2 := h2.2
  simp at hc1 hc2
  exact ⟨hc1, hc2⟩

theorem stars3_id_not_dead (st : Settings) (dt rBirth : ℝ) (birthStar : Star)
    (stars1 : List Star) (hnd : (stars1.map Star.id).Nodup)
    (hfresh : birthStar.id ∉ deadIds stars1)
    (A : Star) (hA : A ∈ birthPhase st dt rBirth birthStar (pruneDeadPhase stars1)) :
    A.id ∉ deadIds stars1 := by
  intro hdead
  rcases mem_birthPhase st dt rBirth birthStar _ A hA with hA1 | rfl
  · rw [mem_pruneDead] at hA1
    obtain ⟨hmem, halive⟩ := hA1
    rw [mem_deadIds] at hdead
    obtain ⟨D, hD, hDdead, hDid⟩ := hdead
    obtain rfl := eq_of_mem_nodup_id stars1 hnd D A hD hmem hDid
    exact hDdead halive
  · exact hfresh hdead

/-- C9 counterexample: a manager holding a dead star (id 7), a live star
(id 1) and the connection between them.  Immediately after the dead-star
prune inside `update` — before the connection prune, which the source runs
later — the dead entity is already gone from the star collection while the
connection referencing it is still present, so connections are not removed
before their entity. -/
theorem prune_order_counterexample :
    (∀ s ∈ (Manager.updateAfterPrune scenarioSettings
        ⟨[agedStar, sampleStar 1 ⟨10, 0, 0⟩ true (some 0)], [⟨7, 1⟩], []⟩ 0 0
        (fun _ => 1) (fun _ => 1)).stars, s.id ≠ 7) ∧
    (⟨7, 1⟩ : Connection) ∈ (Manager.updateAfterPrune scenarioSettings
        ⟨[agedStar, sampleStar 1 ⟨10, 0, 0⟩ true (some 0)], [⟨7, 1⟩], []⟩ 0 0
        (fun _ => 1) (fun _ => 1)).conns := by
  constructor
  · intro s hs
    simp only [Manager.updateAfterPrune] at hs
    rw [mem_pruneDead] at hs
    obtain ⟨hmem, halive⟩ := hs
    simp only [starUpdatePhase, List.enum, List.enumFrom, List.map, List.mem_cons,
      List.mem_singleton, List.not_mem_nil, or_false] at hmem
    rcases hmem with rfl | rfl
    · exfalso
      revert halive
      norm_num [Star.update, Star.updateLife, Star.isAlive, Star.distFromCenter,
        agedStar, scenarioSettings]
    · norm_num [Star.update, Star.updateLife, Star.distFromCenter,
        sampleStar, scenarioSettings]
  · simp [Manager.updateAfterPrune]

/-- C9 amended: within every `update` tick, dead entities are removed from
the entity collection first and every connection referencing one is removed
later in the same tick: at the end of the tick no connection references any
entity that died in it (given distinct star ids and a birth id distinct
from this tick's dead ids). -/
theorem update_no_connection_to_dead (st : Settings) (m : Manager) (dt now : ℝ)
    (rSup rAct : ℕ → ℝ) (rBirth : ℝ) (birthStar : Star)
    (hnd : ((starUpdatePhase st dt now rSup rAct m.stars).map Star.id).Nodup)
    (hfresh : birthStar.id ∉ deadIds (starUpdatePhase st dt now rSup rAct m.stars)) :
    ∀ c ∈ (Manager.update st m dt now rSup rAct rBirth birthStar).conns,
      c.star1 ∉ deadIds (starUpdatePhase st dt now rSup rAct m.stars) ∧
      c.star2 ∉ deadIds (starUpdatePhase st dt now rSup rAct m.stars) := by
  intro c hc
  simp only [Manager.update] at hc
  rcases handshakePhase_mem _ _ _ _ _ c hc with h1 | ⟨A, B, hA, hB, rfl, -, -⟩
  · exact connPrune_not_dead _ _ _ c h1
  · exact ⟨stars3_id_not_dead st dt rBirth birthStar _ hnd hfresh A hA,
      stars3_id_not_dead st dt rBirth birthStar _ hnd hfresh B hB⟩

/-- Witness for the amended C9 at a concrete input: two live active stars
(ids 1 and 2) connected before the tick; the connection survives the tick
and references no id that died in it. -/
theorem update_no_connection_to_dead_witness :
    (⟨1, 2⟩ : Connection).star1 ∉ deadIds (starUpdatePhase scenarioSettings 0 0
        (fun _ => 1) (fun _ => 1)
        [sampleStar 1 ⟨0, 0, 0⟩ true (some 0), sampleStar 2 ⟨10, 0, 0⟩ true (some 0)]) ∧
    (⟨1, 2⟩ : Connection).star2 ∉ deadIds (starUpdatePhase scenarioSettings 0 0
        (fun _ => 1) (fun _ => 1)
        [sampleStar 1 ⟨0, 0, 0⟩ true (some 0), sampleStar 2 ⟨10, 0, 0⟩ true (some 0)]) :=
  update_no_connection_to_dead scenarioSettings
    ⟨[sampleStar 1 ⟨0, 0, 0⟩ true (some 0), sampleStar 2 ⟨10, 0, 0⟩ true (some 0)],
      [⟨1, 2⟩], []⟩ 0 0 (fun _ => 1) (fun _ => 1) 1 agedStar
    (by norm_num [starUpdatePhase, Star.update, Star.updateLife, Star.distFromCenter,
      sampleStar, scenarioSettings, List.enum, List.enumFrom])
    (by norm_num [deadIds, starUpdatePhase, Star.update, Star.updateLife, Star.isAlive,
      Star.distFromCenter, sampleStar, scenarioSettings, agedStar, List.enum, List.enumFrom])
    ⟨1, 2⟩
    (by
      norm_num [Manager.update, connPrunePhase, starActive, deadIds, pruneDeadPhase,
        starUpdatePhase, Star.update, Star.updateLife, Star.isAlive, Star.distFromCenter,
        sampleStar, scenarioSettings, List.enum, List.enumFrom, List.find?, List.filter]
      exact handshakePhase_mono _ _ _ _ _ _ (List.mem_singleton.mpr rfl))

end CosmicNet
